import Mathlib

/-!
Verification of the shape/dtype discovery engine of the array-construction
core (source file: array coercion translation unit, given as
src/unnamed/part_004).  The definitions below are a shallow embedding of
that C file: every function is translated from the source, keeping the
source's names and control flow.  External collaborators that are not part
of the provided source (the dtype-class slots from dtypemeta, the promotion
table from convert_datatype, and the flexible-dtype adaption from ctors)
are modelled from the specification and marked as such in their doc
comments.  Machine integers are modelled as Int (the C int arithmetic in
this file never overflows for the inputs considered: dimension counts are
tiny), object pointers as an inductive datatype of Python values, and the
CPython error indicator as an explicit Option field threaded through the
state.
-/

/-- Type numbers of the element-type (dtype) classes that this model needs:
signed byte, default signed integer, double, unicode and byte strings,
datetime, void (possibly structured), the generic object class, and
user-defined classes identified by a number. -/
inductive TypeNum where
  | tByte
  | tLong
  | tDouble
  | tUnicode
  | tString
  | tDatetime
  | tVoid
  | tObject
  | tUser (n : Nat)
deriving DecidableEq, Repr

/-- A dtype instance (PyArray_Descr): its class is identified by the type
number; itemLen models the parametric size (string length); charType models
the legacy descr->type == 'c' marker on NPY_STRING descriptors; structured
models void descriptors carrying names or a subarray. -/
structure Descr where
  typeNum : TypeNum
  itemLen : Nat := 0
  charType : Bool := false
  structured : Bool := false
deriving DecidableEq, Repr

/-- The singleton object descriptor, PyArray_DescrFromType applied to
NPY_OBJECT.  The source also uses PyArray_DescrNewFromType for the object
dtype; the two produce equal descriptors in this value model. -/
def objectDescr : Descr := ⟨TypeNum.tObject, 0, false, false⟩

/-- PyArray_DescrFromType applied to NPY_DEFAULT_TYPE (double). -/
def npyDefaultTypeDescr : Descr := ⟨TypeNum.tDouble, 0, false, false⟩

/-- Python type objects, as far as the discovery engine distinguishes them:
the primed sequence types (list, tuple, ndarray), the builtin scalar types
int/float/str/bytes, numpy scalar types (carrying their dtype class's type
number), dict-like mapping types, a sequence type whose materialization
fails, an array-like type, an array-like type whose conversion fails, an
opaque type, and user scalar types (carrying whether they derive from the
generic array-scalar base type). -/
inductive PyTypeTag where
  | listT
  | tupleT
  | ndarrayT
  | intT
  | floatT
  | strT
  | bytesT
  | scalarT (t : TypeNum)
  | dictLikeT
  | badSeqT
  | arrayLikeT
  | badArrayLikeT
  | opaqueT
  | userT (n : Nat) (genericSub : Bool)
deriving DecidableEq, Repr

/-- A dtype class (PyArray_DTypeMeta): type number, parametric flag, legacy
flag, the associated python scalar type, and the default descriptor (the C
code uses the default_descr slot when present and the singleton otherwise;
this model merges the two into one field). -/
structure DTypeMeta where
  typeNum : TypeNum
  parametric : Bool
  legacy : Bool
  scalarType : PyTypeTag
  defaultDescr : Descr
deriving DecidableEq, Repr

/-- Modelled from the spec: the builtin dtype-class table (dtypemeta is not
part of the provided source).  One class per type number; the string,
unicode, datetime and void classes are parametric, the numeric and object
classes are not; builtin classes are legacy, user classes are not. -/
def DTypeOfNum : TypeNum → DTypeMeta
  | TypeNum.tByte => ⟨TypeNum.tByte, false, true, PyTypeTag.scalarT TypeNum.tByte, ⟨TypeNum.tByte, 0, false, false⟩⟩
  | TypeNum.tLong => ⟨TypeNum.tLong, false, true, PyTypeTag.scalarT TypeNum.tLong, ⟨TypeNum.tLong, 0, false, false⟩⟩
  | TypeNum.tDouble => ⟨TypeNum.tDouble, false, true, PyTypeTag.scalarT TypeNum.tDouble, ⟨TypeNum.tDouble, 0, false, false⟩⟩
  | TypeNum.tUnicode => ⟨TypeNum.tUnicode, true, true, PyTypeTag.scalarT TypeNum.tUnicode, ⟨TypeNum.tUnicode, 0, false, false⟩⟩
  | TypeNum.tString => ⟨TypeNum.tString, true, true, PyTypeTag.scalarT TypeNum.tString, ⟨TypeNum.tString, 0, false, false⟩⟩
  | TypeNum.tDatetime => ⟨TypeNum.tDatetime, true, true, PyTypeTag.scalarT TypeNum.tDatetime, ⟨TypeNum.tDatetime, 0, false, false⟩⟩
  | TypeNum.tVoid => ⟨TypeNum.tVoid, true, true, PyTypeTag.scalarT TypeNum.tVoid, ⟨TypeNum.tVoid, 0, false, false⟩⟩
  | TypeNum.tObject => ⟨TypeNum.tObject, false, true, PyTypeTag.scalarT TypeNum.tObject, ⟨TypeNum.tObject, 0, false, false⟩⟩
  | TypeNum.tUser n => ⟨TypeNum.tUser n, false, false, PyTypeTag.userT n true, ⟨TypeNum.tUser n, 0, false, false⟩⟩

/-- The CPython exceptions raised by the modelled code, identified by the
raise site / message. -/
inductive PyExc where
  | keyError
  | typeErrorNoSequence
  | typeErrorArrayLike
  | typeErrorCannotRepresent
  | valueErrorRagged
  | runtimeErrorBadDType
  | runtimeErrorRegisterGeneric
  | runtimeErrorOneTypeMapping
  | notImplementedCastError
deriving DecidableEq, Repr

/-! The global pytype-to-DType mapping (lines 65 to 222 of the source).
The dictionary is keyed by python objects; the code only ever inserts
python type objects as keys, but the duplicate check of
_PyArray_MapPyTypeToDType looks up the DType object itself, so the key
type distinguishes the two kinds of key.  Values are either Py_None (a
known non-scalar marker) or a weak reference to a DType class; a dead weak
reference is modelled by the weak constructor holding none. -/

/-- A key of the global pytype-to-type dictionary. -/
inductive PyKey where
  | typeKey (t : PyTypeTag)
  | dtypeObjKey (D : DTypeMeta)
deriving DecidableEq, Repr

/-- A value of the global pytype-to-type dictionary: Py_None, or a weak
reference (none once the referent has been garbage-collected). -/
inductive RegEntry where
  | markNone
  | weak (cls : Option DTypeMeta)
deriving DecidableEq, Repr

/-- The global pytype-to-type dictionary, modelled as an association list
with dictionary (unique-key) semantics. -/
abbrev Registry := List (PyKey × RegEntry)

/-- PyDict_GetItem on the global dictionary. -/
def regGet : Registry → PyKey → Option RegEntry
  | [], _ => none
  | (k', v) :: rest, k => if k' = k then some v else regGet rest k

/-- PyDict_SetItem on the global dictionary (replaces an existing key). -/
def regSet : Registry → PyKey → RegEntry → Registry
  | [], k, v => [(k, v)]
  | (k', v') :: rest, k, v =>
    if k' = k then (k, v) :: rest else (k', v') :: regSet rest k v

/-- PyDict_DelItem on the global dictionary. -/
def regDel : Registry → PyKey → Registry
  | [], _ => []
  | (k', v') :: rest, k =>
    if k' = k then regDel rest k else (k', v') :: regDel rest k

/-- The dictionary produced by _prime_global_pytype_to_type_dict (lines 96
to 119): list, tuple and ndarray are mapped to Py_None, marking them as
known non-scalars. -/
def primedTypeDict : Registry :=
  [(PyKey.typeKey PyTypeTag.listT, RegEntry.markNone),
   (PyKey.typeKey PyTypeTag.tupleT, RegEntry.markNone),
   (PyKey.typeKey PyTypeTag.ndarrayT, RegEntry.markNone)]

/-- PyObject_IsSubclass against PyGenericArrType_Type: numpy scalar types
derive from the generic array-scalar type; a user scalar type carries the
answer; builtin python types and sequence types do not derive from it. -/
def isSubclassOfGenericScalar : PyTypeTag → Bool
  | PyTypeTag.scalarT _ => true
  | PyTypeTag.userT _ b => b
  | _ => false

/-- Translation of _PyArray_MapPyTypeToDType (lines 128 to 178).  The
userdef check mirrors lines 134 to 149.  The duplicate check at line 162
is translated exactly as written: PyDict_Contains is called with the DType
object (Dtype_obj), not with the python type being mapped, so it looks up
the DType object among the dictionary keys.  On success the python type is
mapped to a (live) weak reference to the class, replacing any existing
mapping for that python type.  The dictionary-creation branch (lines 152
to 160) is outside this model: the registry argument plays the role of the
already-primed dictionary. -/
def _PyArray_MapPyTypeToDType (reg : Registry) (DType : DTypeMeta)
    (pytype : PyTypeTag) (userdef : Bool) : Except PyExc Registry :=
  if userdef ∧ ¬ isSubclassOfGenericScalar pytype then
    Except.error PyExc.runtimeErrorRegisterGeneric
  else if (regGet reg (PyKey.dtypeObjKey DType)).isSome then
    Except.error PyExc.runtimeErrorOneTypeMapping
  else
    Except.ok (regSet reg (PyKey.typeKey pytype) (RegEntry.weak (some DType)))

/-- Result of discover_dtype_from_pytype: NULL without an error set
(unknown type), Py_None (known non-scalar), or a DType class. -/
inductive PyTypeLookup where
  | unknown
  | nonScalar
  | dtype (D : DTypeMeta)
deriving DecidableEq, Repr

/-- Translation of discover_dtype_from_pytype (lines 187 to 222).  A
missing key returns NULL (unknown).  A Py_None value is the known
non-scalar marker.  A live weak reference returns the class.  For a dead
weak reference the code deletes the stale entry from the dictionary and
then falls through to return the weak reference's referent, which is
Py_None, i.e. the known non-scalar marker (lines 204 to 221). -/
def discover_dtype_from_pytype (reg : Registry) (t : PyTypeTag) :
    PyTypeLookup × Registry :=
  match regGet reg (PyKey.typeKey t) with
  | none => (PyTypeLookup.unknown, reg)
  | some RegEntry.markNone => (PyTypeLookup.nonScalar, reg)
  | some (RegEntry.weak (some D)) => (PyTypeLookup.dtype D, reg)
  | some (RegEntry.weak none) =>
    (PyTypeLookup.nonScalar, regDel reg (PyKey.typeKey t))

/-! Python values, as far as the discovery engine distinguishes them.  A
string exposes its items (CPython returns its length-one substrings when a
string is materialized as a sequence; pyChar is a length-one string, the
base case of that item access).  A bytes object exposes its items as well
(small integers under Python 3).  An ndarray carries its shape, its
descriptor and, for the object-dtype special case, its elements.  An
array-like converts to an array of the given shape and descriptor;
badArrayLike is an array-like whose conversion raises.  dictLike is a
mapping that passes the sequence check but raises KeyError when
materialized; badSequence raises a non-KeyError; opaque is none of the
above. -/

mutual
inductive PyObj where
  | pyInt
  | pyFloat
  | pyStr (chars : PyObjList)
  | pyChar
  | pyBytes (chars : PyObjList)
  | pyList (items : PyObjList)
  | pyTuple (items : PyObjList)
  | npScalar (descr : Descr)
  | npArray (shape : List Int) (descr : Descr) (elems : PyObjList)
  | arrayLike (shape : List Int) (descr : Descr)
  | dictLike
  | badSequence
  | badArrayLike
  | opaqueObj
deriving DecidableEq, Repr
inductive PyObjList where
  | nil
  | cons (x : PyObj) (xs : PyObjList)
deriving DecidableEq, Repr
end

/-- Length of an object list. -/
def lengthL : PyObjList → Nat
  | PyObjList.nil => 0
  | PyObjList.cons _ xs => lengthL xs + 1

/-- Embed a Lean list of objects (convenience for concrete inputs). -/
def ofL : List PyObj → PyObjList :=
  fun l => l.foldr PyObjList.cons PyObjList.nil

/-- Py_TYPE of a value. -/
def typeOf : PyObj → PyTypeTag
  | PyObj.pyInt => PyTypeTag.intT
  | PyObj.pyFloat => PyTypeTag.floatT
  | PyObj.pyStr _ => PyTypeTag.strT
  | PyObj.pyChar => PyTypeTag.strT
  | PyObj.pyBytes _ => PyTypeTag.bytesT
  | PyObj.pyList _ => PyTypeTag.listT
  | PyObj.pyTuple _ => PyTypeTag.tupleT
  | PyObj.npScalar d => PyTypeTag.scalarT d.typeNum
  | PyObj.npArray _ _ _ => PyTypeTag.ndarrayT
  | PyObj.arrayLike _ _ => PyTypeTag.arrayLikeT
  | PyObj.dictLike => PyTypeTag.dictLikeT
  | PyObj.badSequence => PyTypeTag.badSeqT
  | PyObj.badArrayLike => PyTypeTag.badArrayLikeT
  | PyObj.opaqueObj => PyTypeTag.opaqueT

/-- Modelled from the spec: the optional is_known_scalar slot of a dtype
class (dtypemeta is not part of the provided source).  None of the classes
in this model define the slot, so the fast-path check at lines 252 to 253
never fires through it; the Py_TYPE identity check at line 251 is modelled
exactly. -/
def dtypeIsKnownScalar (_D : DTypeMeta) (_obj : PyObj) : Bool := false

/-- The legacy scalar-type discovery at lines 275 to 290: numpy scalars
map to the class of PyArray_DescrFromScalar; bytes map to the NPY_BYTE
class (line 283); unicode strings map to the NPY_UNICODE class (line 286);
otherwise _array_find_python_scalar_type recognizes python int and float;
anything else is not a known scalar. -/
def legacyDTypeLookup : PyObj → Option DTypeMeta
  | PyObj.npScalar d => some (DTypeOfNum d.typeNum)
  | PyObj.pyBytes _ => some (DTypeOfNum TypeNum.tByte)
  | PyObj.pyStr _ => some (DTypeOfNum TypeNum.tUnicode)
  | PyObj.pyChar => some (DTypeOfNum TypeNum.tUnicode)
  | PyObj.pyInt => some (DTypeOfNum TypeNum.tLong)
  | PyObj.pyFloat => some (DTypeOfNum TypeNum.tDouble)
  | _ => none

/-- The registry consultation and legacy fallback of
discover_dtype_from_pyobject (lines 266 to 312): a registered class or the
known non-scalar marker is decisive; an unknown type falls through to the
legacy discovery.  The FutureWarning block at lines 296 to 307 is disabled
in the source (the condition starts with a literal zero), so no warning is
modelled here. -/
def discoverDTypeViaRegistry (reg : Registry) (obj : PyObj) :
    Option DTypeMeta × Registry :=
  match discover_dtype_from_pytype reg (typeOf obj) with
  | (PyTypeLookup.dtype D, reg') => (some D, reg')
  | (PyTypeLookup.nonScalar, reg') => (none, reg')
  | (PyTypeLookup.unknown, reg') => (legacyDTypeLookup obj, reg')

/-- Translation of discover_dtype_from_pyobject (lines 235 to 313).  A
caller-fixed class is consulted first (lines 240 to 264): if the value's
type is exactly the class's scalar type, or the class claims the value via
is_known_scalar, the fixed class is the answer.  Otherwise the global
registry and the legacy fallback decide.  The none result is the Py_None
return value: the value is not a known scalar.  This function cannot fail
in the model (its only failure paths in the source are inside dead code
and out-of-memory situations). -/
def discover_dtype_from_pyobject (reg : Registry) (obj : PyObj)
    (fixed : Option DTypeMeta) : Option DTypeMeta × Registry :=
  match fixed with
  | some f =>
    if typeOf obj = f.scalarType ∨ dtypeIsKnownScalar f obj then (some f, reg)
    else discoverDTypeViaRegistry reg obj
  | none => discoverDTypeViaRegistry reg obj

/-- Modelled from the spec: the discover_descr_from_pyobject slot of a
dtype class (section 4.2 of the specification; dtypemeta is not part of
the provided source).  A non-parametric class always returns its canonical
default instance.  A parametric class sizes an instance from the value
when it can (unicode from a string's length, byte strings from a bytes
object's length, and any parametric class from its own scalars), and
returns NotImplemented (none) otherwise. -/
def discover_descr_from_pyobject (D : DTypeMeta) (obj : PyObj) : Option Descr :=
  if ¬ D.parametric then some D.defaultDescr
  else
    match obj with
    | PyObj.npScalar d => if d.typeNum = D.typeNum then some d else none
    | PyObj.pyStr cs =>
      if D.typeNum = TypeNum.tUnicode then some ⟨TypeNum.tUnicode, lengthL cs, false, false⟩ else none
    | PyObj.pyChar =>
      if D.typeNum = TypeNum.tUnicode then some ⟨TypeNum.tUnicode, 1, false, false⟩ else none
    | PyObj.pyBytes cs =>
      if D.typeNum = TypeNum.tString then some ⟨TypeNum.tString, lengthL cs, false, false⟩ else none
    | _ => none

/-- Modelled from the spec: the legacy flexible-size table used by
PyArray_AdaptFlexibleDType (ctors is not part of the provided source): a
string target sized from the source descriptor. -/
def flexLenOf (d : Descr) : Nat :=
  match d.typeNum with
  | TypeNum.tUnicode => d.itemLen
  | TypeNum.tString => d.itemLen
  | TypeNum.tDouble => 32
  | _ => 21

/-- Modelled from the spec: PyArray_AdaptFlexibleDType (ctors is not part
of the provided source) adapts a descriptor into the fixed legacy
parametric class, choosing the parameter from the source descriptor. -/
def PyArray_AdaptFlexibleDType (d : Descr) (f : DTypeMeta) : Except PyExc Descr :=
  Except.ok ⟨f.typeNum, flexLenOf d, false, false⟩

/-- PyObject_IsInstance of a descriptor against a dtype class: in this
model a descriptor belongs to the unique class with its type number. -/
def descrInstanceOfClass (d : Descr) (f : DTypeMeta) : Bool :=
  d.typeNum = f.typeNum

/-- Translation of cast_descriptor_to_fixed_dtype (lines 316 to 352): with
no fixed class the descriptor passes through; a non-parametric fixed class
always yields its default instance; a descriptor already of the fixed
parametric class passes through; a legacy parametric fixed class falls
back to PyArray_AdaptFlexibleDType; otherwise NotImplementedError. -/
def cast_descriptor_to_fixed_dtype (d : Descr) (fixed : Option DTypeMeta) :
    Except PyExc Descr :=
  match fixed with
  | none => Except.ok d
  | some f =>
    if ¬ f.parametric then Except.ok f.defaultDescr
    else if descrInstanceOfClass d f then Except.ok d
    else if f.legacy ∧ f.parametric then PyArray_AdaptFlexibleDType d f
    else Except.error PyExc.notImplementedCastError

/-- The tail of find_scalar_descriptor from line 406: with no discovered
class, a fixed class means the object cannot be represented (TypeError)
and no fixed class means the generic object descriptor; with a discovered
class its descr hook must succeed (else the class is broken:
RuntimeError), and the result is cast into the fixed class when one was
given. -/
def findScalarDescrTail (fixed : Option DTypeMeta) (DType : Option DTypeMeta)
    (obj : PyObj) : Except PyExc Descr :=
  match DType with
  | none =>
    match fixed with
    | some _ => Except.error PyExc.typeErrorCannotRepresent
    | none => Except.ok objectDescr
  | some D =>
    match discover_descr_from_pyobject D obj with
    | none => Except.error PyExc.runtimeErrorBadDType
    | some d =>
      match fixed with
      | none => Except.ok d
      | some _ => cast_descriptor_to_fixed_dtype d fixed

/-- Translation of find_scalar_descriptor (lines 367 to 440).  A requested
descriptor is returned unchanged (lines 377 to 380).  Otherwise the fixed
class gets the first chance to discover a descriptor (lines 382 to 404); a
NotImplemented answer from a class that was itself the discovered class is
a RuntimeError; otherwise the discovered class takes over. -/
def find_scalar_descriptor (fixed : Option DTypeMeta) (DType : Option DTypeMeta)
    (obj : PyObj) (req : Option Descr) : Except PyExc Descr :=
  match req with
  | some r => Except.ok r
  | none =>
    match fixed with
    | some f =>
      match discover_descr_from_pyobject f obj with
      | some d => Except.ok d
      | none =>
        if DType = some f then Except.error PyExc.runtimeErrorBadDType
        else findScalarDescrTail fixed DType obj
    | none => findScalarDescrTail fixed DType obj

/-- The _dtype_discovery_flags bitset (lines 80 to 87). -/
structure Flags where
  isRagged : Bool := false
  reachedMaxdims : Bool := false
  gaveSubclassWarning : Bool := false
  promotionFailed : Bool := false
  discoverStringsAsSequences : Bool := false
  discoverTuplesAsElements : Bool := false
deriving DecidableEq, Repr

/-- A coercion_cache_obj entry (the converted object, the array or fast
sequence kept alive by the cache, and the sequence flag). -/
structure CacheEntry where
  convertedObj : PyObj
  arrOrSequence : PyObj
  sequence : Bool
deriving DecidableEq, Repr

/-- Translation of npy_new_coercion_cache (lines 491 to 509): append the
entry at the tail of the list (the C code threads a next-pointer, so the
cache is in visitation order). -/
def npy_new_coercion_cache (cache : List CacheEntry) (convertedObj : PyObj)
    (arrOrSequence : PyObj) (sequence : Bool) : List CacheEntry :=
  cache ++ [⟨convertedObj, arrOrSequence, sequence⟩]

/-- Translation of npy_free_coercion_cache (lines 512 to 522): every entry
is released; the caller-visible cache becomes empty. -/
def npy_free_coercion_cache (_cache : List CacheEntry) : List CacheEntry := []

/-- The loop of update_shape (lines 465 to 486).  The remaining iteration
count is the number of loop passes still to run (the caller passes the
toNat of newNdim, so the loop runs while i is less than newNdim exactly as
in the source); an unset slot (negative one) is filled with the new
dimension; a conflicting slot breaks out with failure, shrinking maxNdim
by the current newNdim plus i for non-sequence calls and resetting maxNdim
to currNdim for sequence calls.  Out-of-range reads use the defaults of
getD; all reachable calls stay in range. -/
def updShapeLoop (remaining : Nat) (i : Nat) (newNdim : Int) (currNdim : Nat)
    (maxNdim : Int) (outShape newShape : List Int) (sequence : Bool)
    (success : Int) : Int × Int × List Int :=
  match remaining with
  | 0 => (success, maxNdim, outShape)
  | r + 1 =>
    let currDim := outShape.getD (currNdim + i) (-1)
    let newDim := newShape.getD i 0
    if currDim = -1 then
      updShapeLoop r (i + 1) newNdim currNdim maxNdim
        (outShape.set (currNdim + i) newDim) newShape sequence success
    else if newDim ≠ currDim then
      (-1, if ¬ sequence then maxNdim - (newNdim + i) else (currNdim : Int), outShape)
    else
      updShapeLoop r (i + 1) newNdim currNdim maxNdim outShape newShape sequence success

/-- Translation of update_shape (lines 443 to 488).  Returns the success
flag (zero or negative one), the updated maxNdim and the updated shape.
When the new dimensions do not fit below maxNdim, only the dimensions up
to maxNdim are checked and maxNdim is unchanged (lines 449 to 453).  A
non-sequence call that does not land exactly on maxNdim shrinks maxNdim
and reports raggedness if the slot at the new maxNdim was already set
(lines 454 to 464). -/
def update_shape (currNdim : Nat) (maxNdim : Int) (outShape : List Int)
    (newNdim : Int) (newShape : List Int) (sequence : Bool) :
    Int × Int × List Int :=
  if (currNdim : Int) + newNdim > maxNdim then
    updShapeLoop (maxNdim - currNdim).toNat 0 (maxNdim - currNdim) currNdim
      maxNdim outShape newShape sequence (-1)
  else if ¬ sequence ∧ maxNdim ≠ (currNdim : Int) + newNdim then
    let m : Int := (currNdim : Int) + newNdim
    let succ0 : Int := if outShape.getD m.toNat (-1) ≥ 0 then -1 else 0
    updShapeLoop newNdim.toNat 0 newNdim currNdim m outShape newShape sequence succ0
  else
    updShapeLoop newNdim.toNat 0 newNdim currNdim maxNdim outShape newShape sequence 0

/-- Modelled from the spec: PyArray_PromoteTypes (convert_datatype is not
part of the provided source).  The object class absorbs everything; two
instances of one class unify to the larger parameter; the numeric classes
promote by rank; a numeric class with a string class promotes to a sized
string; byte strings promote with unicode to unicode; all other pairs
(datetime with a non-datetime, structured void with anything else, user
classes) have no common type. -/
def numericRank : TypeNum → Option Nat
  | TypeNum.tByte => some 1
  | TypeNum.tLong => some 2
  | TypeNum.tDouble => some 3
  | _ => none

/-- Modelled from the spec: promotion of two descriptors; none means the
promotion fails (no common type). -/
def PyArray_PromoteTypes (a b : Descr) : Option Descr :=
  if a.typeNum = TypeNum.tObject ∨ b.typeNum = TypeNum.tObject then
    some objectDescr
  else if a.typeNum = b.typeNum then
    some ⟨a.typeNum, Nat.max a.itemLen b.itemLen, false, false⟩
  else
    match numericRank a.typeNum, numericRank b.typeNum with
    | some ra, some rb =>
      some ⟨if ra ≥ rb then a.typeNum else b.typeNum, 0, false, false⟩
    | some _, none =>
      if b.typeNum = TypeNum.tUnicode ∨ b.typeNum = TypeNum.tString then
        some ⟨b.typeNum, Nat.max b.itemLen 21, false, false⟩
      else none
    | none, some _ =>
      if a.typeNum = TypeNum.tUnicode ∨ a.typeNum = TypeNum.tString then
        some ⟨a.typeNum, Nat.max a.itemLen 21, false, false⟩
      else none
    | none, none =>
      match a.typeNum, b.typeNum with
      | TypeNum.tString, TypeNum.tUnicode => some ⟨TypeNum.tUnicode, Nat.max a.itemLen b.itemLen, false, false⟩
      | TypeNum.tUnicode, TypeNum.tString => some ⟨TypeNum.tUnicode, Nat.max a.itemLen b.itemLen, false, false⟩
      | _, _ => none

/-- Translation of handle_promotion (lines 535 to 561).  With a requested
descriptor nothing happens.  With no running descriptor the new one is
taken.  Otherwise PyArray_PromoteTypes runs; on failure the error is
cleared, the sticky promotion-failed flag is set and the running
descriptor becomes the object descriptor.  The function returns zero on
every path.  The last component counts the promotion attempts actually
performed (instrumentation only; it influences nothing). -/
def handle_promotion (outDescr : Option Descr) (descr : Descr)
    (req : Option Descr) (flags : Flags) (promoCount : Nat) :
    Int × Option Descr × Flags × Nat :=
  if req.isSome then (0, outDescr, flags, promoCount)
  else
    match outDescr with
    | none => (0, some descr, flags, promoCount)
    | some cur =>
      match PyArray_PromoteTypes cur descr with
      | none => (0, some objectDescr, {flags with promotionFailed := true}, promoCount + 1)
      | some nd => (0, some nd, flags, promoCount + 1)

/-- Result record of handle_scalar: the returned int (the new maxNdim, or
negative one on error), the updated running descriptor, shape and flags,
the promotion counter, and a newly raised exception if any. -/
structure ScalarOut where
  ret : Int
  outDescr : Option Descr
  outShape : List Int
  flags : Flags
  promoCount : Nat
  exc : Option PyExc
deriving DecidableEq, Repr

/-- Translation of handle_scalar (lines 581 to 603).  Finds the scalar's
descriptor, updates the shape with zero new dimensions, and on raggedness
sets the flag and replaces the running descriptor by the object
descriptor; otherwise promotes.  The unused trailing descr parameter of
the C function is dropped (it is overwritten before use). -/
def handle_scalar (obj : PyObj) (currDims : Nat) (maxDims : Int)
    (outDescr : Option Descr) (outShape : List Int)
    (fixedDType : Option DTypeMeta) (requestedDescr : Option Descr)
    (flags : Flags) (DType : Option DTypeMeta) (promoCount : Nat) : ScalarOut :=
  match find_scalar_descriptor fixedDType DType obj requestedDescr with
  | Except.error e => ⟨-1, outDescr, outShape, flags, promoCount, some e⟩
  | Except.ok descr =>
    match update_shape currDims maxDims outShape 0 [] false with
    | (succ, max1, shape1) =>
      if succ < 0 then
        ⟨max1, some objectDescr, shape1, {flags with isRagged := true}, promoCount, none⟩
      else
        match handle_promotion outDescr descr requestedDescr flags promoCount with
        | (r, od, fl, pc) =>
          if r < 0 then ⟨-1, od, shape1, fl, pc, none⟩
          else ⟨max1, od, shape1, fl, pc, none⟩

/-- The state threaded through the recursive discovery: the running output
descriptor, the output shape array, the coercion cache, the flags, the
global registry, and the CPython error indicator.  promoCount counts the
promotion attempts and deepest records the largest recursion depth
visited; both are ghost instrumentation and influence nothing. -/
structure DiscState where
  outDescr : Option Descr
  outShape : List Int
  cache : List CacheEntry
  flags : Flags
  reg : Registry
  exc : Option PyExc
  promoCount : Nat
  deepest : Nat
deriving DecidableEq, Repr

/-- Run handle_scalar against the threaded state, merging its outputs back
(the shape, descriptor and flags are out-parameters in the C code; a newly
raised exception lands in the error indicator). -/
def applyHandleScalar (obj : PyObj) (curr : Nat) (maxDims : Int)
    (fixed : Option DTypeMeta) (req : Option Descr) (DType : Option DTypeMeta)
    (st : DiscState) : Int × DiscState :=
  let o := handle_scalar obj curr maxDims st.outDescr st.outShape fixed req
    st.flags DType st.promoCount
  (o.ret, {st with outDescr := o.outDescr, outShape := o.outShape,
                   flags := o.flags, promoCount := o.promoCount,
                   exc := if o.exc.isSome then o.exc else st.exc})

/-- The scalar-detection step at lines 640 to 652: discover the dtype
class; a class answer means the node is a scalar and is handled by
handle_scalar (inl carries that result); the Py_None answer means the node
is not a known scalar and discovery continues (inr carries the state with
the possibly pruned registry). -/
def scalarStep (obj : PyObj) (curr : Nat) (maxDims : Int)
    (fixed : Option DTypeMeta) (req : Option Descr) (st : DiscState) :
    (Int × DiscState) ⊕ DiscState :=
  match discover_dtype_from_pyobject st.reg obj fixed with
  | (some DType, reg1) =>
    Sum.inl (applyHandleScalar obj curr maxDims fixed req (some DType) {st with reg := reg1})
  | (none, reg1) => Sum.inr {st with reg := reg1}

/-- The max-dims / non-sequence fallback at lines 759 to 769: clear any
pending error from the sequence-size probe, handle the node as a scalar,
and flag that the depth limit was hit when the node was a sequence. -/
def scalarFallback (obj : PyObj) (curr : Nat) (maxDims : Int)
    (fixed : Option DTypeMeta) (req : Option Descr) (isSeq : Bool)
    (st : DiscState) : Int × DiscState :=
  let st1 := {st with exc := none}
  match applyHandleScalar obj curr maxDims fixed req none st1 with
  | (ret, st2) =>
    if isSeq then (ret, {st2 with flags := {st2.flags with reachedMaxdims := true}})
    else (ret, st2)

/-- The per-element loop of the object-dtype special case (lines 703 to
728): each element's class is discovered (a Py_None answer is turned back
into NULL), and handle_scalar runs with a zero-dimension budget and a NULL
shape (modelled by the empty list); the shape result is discarded, the
descriptor, flags and counters are kept.  Note the source passes the
discovered class in the fixed position and the caller's fixed class in
the discovered position. -/
def objectElemsLoop (elems : PyObjList) (fixedDType : DTypeMeta)
    (st : DiscState) : Int × DiscState :=
  match elems with
  | PyObjList.nil => (0, st)
  | PyObjList.cons elem rest =>
    match discover_dtype_from_pyobject st.reg elem (some fixedDType) with
    | (dt, reg1) =>
      let st1 := {st with reg := reg1}
      let o := handle_scalar elem 0 0 st1.outDescr [] dt none st1.flags
        (some fixedDType) st1.promoCount
      let st2 := {st1 with outDescr := o.outDescr, flags := o.flags,
                           promoCount := o.promoCount,
                           exc := if o.exc.isSome then o.exc else st1.exc}
      if o.ret < 0 then (-1, st2) else objectElemsLoop rest fixedDType st2

/-- The cast-and-promote tail of the array branch (lines 730 to 745). -/
def arrayCastPromote (adescr : Descr) (fixed : Option DTypeMeta)
    (req : Option Descr) (max1 : Int) (st : DiscState) : Int × DiscState :=
  match cast_descriptor_to_fixed_dtype adescr fixed with
  | Except.error e => (-1, {st with exc := some e})
  | Except.ok dcast =>
    match handle_promotion st.outDescr dcast req st.flags st.promoCount with
    | (_r, od, fl, pc) =>
      (max1, {st with outDescr := od, flags := fl, promoCount := pc})

/-- The array branch (lines 674 to 747): record the array in the cache,
update the shape (raggedness sets the flag and returns the shrunken max),
then either inspect the elements of an object-dtype array under a fixed
parametric class, or cast the array's descriptor into the fixed class and
promote, or (with a requested descriptor) do nothing more. -/
def arrayBranch (obj : PyObj) (ashape : List Int) (adescr : Descr)
    (aelems : PyObjList) (curr : Nat) (maxDims : Int)
    (fixed : Option DTypeMeta) (req : Option Descr) (st : DiscState) :
    Int × DiscState :=
  let arr := PyObj.npArray ashape adescr aelems
  let st0 := {st with cache := npy_new_coercion_cache st.cache obj arr false}
  match update_shape curr maxDims st0.outShape (ashape.length : Int) ashape false with
  | (succ, max1, shape1) =>
    let st1 := {st0 with outShape := shape1}
    if succ < 0 then
      (max1, {st1 with flags := {st1.flags with isRagged := true}})
    else
      match fixed with
      | some f =>
        if adescr.typeNum = TypeNum.tObject ∧ f.parametric ∧ req = none then
          match objectElemsLoop aelems f st1 with
          | (r, st2) => if r < 0 then (-1, st2) else (max1, st2)
        else if req = none then arrayCastPromote adescr fixed req max1 st1
        else (max1, st1)
      | none =>
        if req = none then arrayCastPromote adescr fixed req max1 st1
        else (max1, st1)

/-- The sequence prolog (lines 792 to 810): record the materialized fast
sequence in the cache, update the shape by one sequence dimension
(raggedness sets the flag and stops), and stop at the current depth plus
one for an empty sequence; inr means the per-item recursion must run with
the returned maxDims. -/
def seqProlog (obj : PyObj) (xs : PyObjList) (curr : Nat) (maxDims : Int)
    (st : DiscState) : (Int × DiscState) ⊕ (Int × DiscState) :=
  let st0 := {st with cache := npy_new_coercion_cache st.cache obj (PyObj.pyList xs) true}
  match update_shape curr maxDims st0.outShape 1 [(lengthL xs : Int)] true with
  | (succ, max1, shape1) =>
    let st1 := {st0 with outShape := shape1}
    if succ < 0 then
      Sum.inl (max1, {st1 with flags := {st1.flags with isRagged := true}})
    else if lengthL xs = 0 then
      Sum.inl ((curr : Int) + 1, st1)
    else
      Sum.inr (max1, st1)

mutual
/-- Translation of PyArray_DiscoverDTypeAndShape_Recursive (lines 606 to
824), arranged as one match on the node's kind; every arm follows the
source's order of checks: the char-dtype force (lines 625 to 638), the
scalar check (lines 640 to 652), the array branch (lines 659 to 747), the
sequence test with the tuple override (lines 754 to 758), the max-dims /
non-sequence fallback (lines 759 to 770), the sequence materialization
with its KeyError recovery (lines 776 to 791), and the sequence prolog
plus the per-item recursion (lines 792 to 823).  A string or bytes node
reaching the materialization point outside the force path is the situation
excluded by the assert at line 772; it is modelled as the materialization
error (such a state is not reachable through the registry API).  The first
line records the recursion depth (ghost instrumentation). -/
def PyArray_DiscoverDTypeAndShape_Recursive (obj : PyObj) (curr : Nat)
    (maxDims : Int) (fixed : Option DTypeMeta) (req : Option Descr)
    (st : DiscState) : Int × DiscState :=
  let st := {st with deepest := Nat.max st.deepest curr}
  match obj with
  | PyObj.pyStr cs =>
    if st.flags.discoverStringsAsSequences ∧ lengthL cs ≠ 1 then
      match seqProlog obj cs curr maxDims st with
      | Sum.inl res => res
      | Sum.inr (m1, st1) => discoverItems cs (curr + 1) m1 fixed req st1
    else
      match scalarStep obj curr maxDims fixed req st with
      | Sum.inl res => res
      | Sum.inr st1 =>
        if (curr : Int) = maxDims then scalarFallback obj curr maxDims fixed req true st1
        else (-1, {st1 with exc := some PyExc.typeErrorNoSequence})
  | PyObj.pyBytes cs =>
    if st.flags.discoverStringsAsSequences ∧ lengthL cs ≠ 1 then
      match seqProlog obj cs curr maxDims st with
      | Sum.inl res => res
      | Sum.inr (m1, st1) => discoverItems cs (curr + 1) m1 fixed req st1
    else
      match scalarStep obj curr maxDims fixed req st with
      | Sum.inl res => res
      | Sum.inr st1 =>
        if (curr : Int) = maxDims then scalarFallback obj curr maxDims fixed req true st1
        else (-1, {st1 with exc := some PyExc.typeErrorNoSequence})
  | PyObj.pyChar =>
    match scalarStep obj curr maxDims fixed req st with
    | Sum.inl res => res
    | Sum.inr st1 =>
      if (curr : Int) = maxDims then scalarFallback obj curr maxDims fixed req true st1
      else (-1, {st1 with exc := some PyExc.typeErrorNoSequence})
  | PyObj.pyList xs =>
    match scalarStep obj curr maxDims fixed req st with
    | Sum.inl res => res
    | Sum.inr st1 =>
      if (curr : Int) = maxDims then scalarFallback obj curr maxDims fixed req true st1
      else
        match seqProlog obj xs curr maxDims st1 with
        | Sum.inl res => res
        | Sum.inr (m1, st2) => discoverItems xs (curr + 1) m1 fixed req st2
  | PyObj.pyTuple xs =>
    match scalarStep obj curr maxDims fixed req st with
    | Sum.inl res => res
    | Sum.inr st1 =>
      if st1.flags.discoverTuplesAsElements then
        scalarFallback obj curr maxDims fixed req false st1
      else if (curr : Int) = maxDims then scalarFallback obj curr maxDims fixed req true st1
      else
        match seqProlog obj xs curr maxDims st1 with
        | Sum.inl res => res
        | Sum.inr (m1, st2) => discoverItems xs (curr + 1) m1 fixed req st2
  | PyObj.npArray ashape adescr aelems =>
    match scalarStep obj curr maxDims fixed req st with
    | Sum.inl res => res
    | Sum.inr st1 => arrayBranch obj ashape adescr aelems curr maxDims fixed req st1
  | PyObj.arrayLike ashape adescr =>
    match scalarStep obj curr maxDims fixed req st with
    | Sum.inl res => res
    | Sum.inr st1 => arrayBranch obj ashape adescr PyObjList.nil curr maxDims fixed req st1
  | PyObj.badArrayLike =>
    match scalarStep obj curr maxDims fixed req st with
    | Sum.inl res => res
    | Sum.inr st1 => (-1, {st1 with exc := some PyExc.typeErrorArrayLike})
  | PyObj.dictLike =>
    match scalarStep obj curr maxDims fixed req st with
    | Sum.inl res => res
    | Sum.inr st1 =>
      if (curr : Int) = maxDims then scalarFallback obj curr maxDims fixed req true st1
      else
        applyHandleScalar obj curr maxDims fixed req none {st1 with exc := none}
  | PyObj.badSequence =>
    match scalarStep obj curr maxDims fixed req st with
    | Sum.inl res => res
    | Sum.inr st1 =>
      if (curr : Int) = maxDims then scalarFallback obj curr maxDims fixed req true st1
      else (-1, {st1 with exc := some PyExc.typeErrorNoSequence})
  | PyObj.pyInt =>
    match scalarStep obj curr maxDims fixed req st with
    | Sum.inl res => res
    | Sum.inr st1 => scalarFallback obj curr maxDims fixed req false st1
  | PyObj.pyFloat =>
    match scalarStep obj curr maxDims fixed req st with
    | Sum.inl res => res
    | Sum.inr st1 => scalarFallback obj curr maxDims fixed req false st1
  | PyObj.npScalar _ =>
    match scalarStep obj curr maxDims fixed req st with
    | Sum.inl res => res
    | Sum.inr st1 => scalarFallback obj curr maxDims fixed req false st1
  | PyObj.opaqueObj =>
    match scalarStep obj curr maxDims fixed req st with
    | Sum.inl res => res
    | Sum.inr st1 => scalarFallback obj curr maxDims fixed req false st1

/-- The per-item loop at lines 812 to 823: each item is discovered at the
next depth with the running maxDims; a negative return aborts with
negative one. -/
def discoverItems (xs : PyObjList) (curr : Nat) (maxDims : Int)
    (fixed : Option DTypeMeta) (req : Option Descr) (st : DiscState) :
    Int × DiscState :=
  match xs with
  | PyObjList.nil => (maxDims, st)
  | PyObjList.cons x rest =>
    match PyArray_DiscoverDTypeAndShape_Recursive x curr maxDims fixed req st with
    | (m, st1) =>
      if m < 0 then (-1, st1) else discoverItems rest curr m fixed req st1
end

/-- The shape initialization loop at lines 887 to 889: every slot of the
output shape starts unset (negative one). -/
def initDiscoveryShape (maxDims : Nat) : List Int :=
  List.replicate maxDims (-1)

/-- The flag setup from the requested descriptor (lines 907 to 918): a
character-variant string descriptor turns on string-as-sequence discovery;
a structured void descriptor turns on tuple-as-element discovery. -/
def requestFlags (req : Option Descr) : Flags :=
  match req with
  | none => {}
  | some r =>
    if r.typeNum = TypeNum.tString ∧ r.charType then
      {discoverStringsAsSequences := true}
    else if r.typeNum = TypeNum.tVoid ∧ r.structured then
      {discoverTuplesAsElements := true}
    else {}

/-- The caller-visible result of the top-level discovery: the returned
number of dimensions (negative one on failure), the shape scratch array,
the output descriptor, the coercion cache, the error indicator, the number
of deprecation-class warnings emitted during the call, and the final
flags, instrumentation counters and registry. -/
structure TopOut where
  ndim : Int
  outShape : List Int
  outDescr : Option Descr
  coercionCache : List CacheEntry
  exc : Option PyExc
  warnCount : Nat
  flags : Flags
  promoCount : Nat
  deepest : Nat
  reg : Registry
deriving DecidableEq, Repr

/-- The failure epilogue at lines 989 to 993: the whole coercion cache is
released, the caller-visible cache pointer and the output descriptor are
both cleared, and negative one is returned. -/
def discoveryFail (st : DiscState) (warn : Nat) : TopOut :=
  ⟨-1, st.outShape, none, npy_free_coercion_cache st.cache, st.exc, warn,
    st.flags, st.promoCount, st.deepest, st.reg⟩

/-- The success epilogue at lines 959 to 987: a requested descriptor is
always returned as the discovered descriptor; otherwise, when nothing was
discovered (empty input), the fixed class's default instance or the
library default type fills in. -/
def discoveryFinish (ndim : Int) (st : DiscState) (fixed : Option DTypeMeta)
    (req : Option Descr) (warn : Nat) : TopOut :=
  let od :=
    match req with
    | some r => some r
    | none =>
      match st.outDescr with
      | some d => some d
      | none =>
        match fixed with
        | some f => some f.defaultDescr
        | none => some npyDefaultTypeDescr
  ⟨ndim, st.outShape, od, st.cache, st.exc, warn, st.flags, st.promoCount,
    st.deepest, st.reg⟩

/-- Translation of PyArray_DiscoverDTypeAndShape (lines 877 to 994).  The
outputs are cleared and the shape is initialized to unset; the two
request-descriptor flags are derived; the recursion runs from depth zero.
A negative return takes the failure epilogue.  Otherwise, when the ragged
flag is set, or the max-dims flag is set with fewer dimensions than the
bound, discovery is ragged: with no fixed class a visible
deprecation-class warning is emitted (exactly once for the whole call) and
the descriptor is downgraded to the object descriptor; with a fixed
non-object class the ragged ValueError is raised and the failure epilogue
runs; a fixed object class accepts the ragged input silently. -/
def PyArray_DiscoverDTypeAndShape (reg : Registry) (obj : PyObj)
    (maxDims : Nat) (fixed : Option DTypeMeta) (req : Option Descr) : TopOut :=
  let st0 : DiscState :=
    { outDescr := none, outShape := initDiscoveryShape maxDims, cache := [],
      flags := requestFlags req, reg := reg, exc := none, promoCount := 0,
      deepest := 0 }
  match PyArray_DiscoverDTypeAndShape_Recursive obj 0 (maxDims : Int) fixed req st0 with
  | (ndim, st) =>
    if ndim < 0 then discoveryFail st 0
    else if st.flags.isRagged ∨ (st.flags.reachedMaxdims ∧ ndim < (maxDims : Int)) then
      match fixed with
      | none =>
        discoveryFinish ndim {st with outDescr := some objectDescr} fixed req 1
      | some f =>
        if f.typeNum ≠ TypeNum.tObject then
          discoveryFail {st with exc := some PyExc.valueErrorRagged} 0
        else discoveryFinish ndim st fixed req 0
    else discoveryFinish ndim st fixed req 0

/-! Lemmas about the shape-update loop and update_shape. -/

/-- The loop returns either the success value it was given or negative
one. -/
theorem updShapeLoop_succ_cases (r : Nat) : ∀ (i : Nat) (nd : Int) (curr : Nat)
    (maxN : Int) (sh ns : List Int) (seq : Bool) (s0 : Int),
    (updShapeLoop r i nd curr maxN sh ns seq s0).1 = s0 ∨
    (updShapeLoop r i nd curr maxN sh ns seq s0).1 = -1 := by
  induction r with
  | zero => intro i nd curr maxN sh ns seq s0; left; rfl
  | succ r ih =>
    intro i nd curr maxN sh ns seq s0
    simp only [updShapeLoop]
    split
    · exact ih (i + 1) nd curr maxN _ ns seq s0
    · split
      · right; rfl
      · exact ih (i + 1) nd curr maxN sh ns seq s0

/-- The loop never increases maxNdim, provided the iteration count fits
below newNdim and, for sequence calls, currNdim is below maxNdim whenever
the loop runs at all. -/
theorem updShapeLoop_max_le (r : Nat) : ∀ (i : Nat) (nd : Int) (curr : Nat)
    (maxN : Int) (sh ns : List Int) (seq : Bool) (s0 : Int),
    ((r : Int) + (i : Int) ≤ nd ∨ r = 0) →
    (seq = true → r = 0 ∨ (curr : Int) ≤ maxN) →
    (updShapeLoop r i nd curr maxN sh ns seq s0).2.1 ≤ maxN := by
  induction r with
  | zero => intro i nd curr maxN sh ns seq s0 _ _; exact le_refl maxN
  | succ r ih =>
    intro i nd curr maxN sh ns seq s0 h1 h2
    have h1n : (r : Int) + (i : Int) + 1 ≤ nd := by
      rcases h1 with h | h
      · push_cast at h; omega
      · omega
    have h2n : seq = true → (curr : Int) ≤ maxN := by
      intro hs
      rcases h2 hs with h | h
      · omega
      · exact h
    have harg1 : ((r : Int) + ((i + 1 : Nat) : Int) ≤ nd ∨ r = 0) := by
      left; push_cast; omega
    have harg2 : seq = true → (r = 0 ∨ (curr : Int) ≤ maxN) := by
      intro hs; exact Or.inr (h2n hs)
    simp only [updShapeLoop]
    split
    · exact ih (i + 1) nd curr maxN _ ns seq s0 harg1 harg2
    · split
      · dsimp only
        split
        · omega
        · rename_i hseq
          refine h2n ?_
          revert hseq
          cases seq <;> simp
      · exact ih (i + 1) nd curr maxN sh ns seq s0 harg1 harg2

/-- The loop never touches slots below currNdim plus the starting index. -/
theorem updShapeLoop_frame (r : Nat) : ∀ (i : Nat) (nd : Int) (curr : Nat)
    (maxN : Int) (sh ns : List Int) (seq : Bool) (s0 : Int) (j : Nat),
    j < curr + i →
    ((updShapeLoop r i nd curr maxN sh ns seq s0).2.2).getD j (-1) =
      sh.getD j (-1) := by
  induction r with
  | zero => intro i nd curr maxN sh ns seq s0 j _; rfl
  | succ r ih =>
    intro i nd curr maxN sh ns seq s0 j hj
    simp only [updShapeLoop]
    split
    · rw [ih (i + 1) nd curr maxN _ ns seq s0 j (by omega)]
      have hne : curr + i ≠ j := by omega
      simp [List.getD_eq_getElem?_getD, List.getElem?_set_ne hne]
    · split
      · rfl
      · exact ih (i + 1) nd curr maxN sh ns seq s0 j (by omega)

/-- A slot that already holds a concrete size is never overwritten by the
loop. -/
theorem updShapeLoop_preserve (r : Nat) : ∀ (i : Nat) (nd : Int) (curr : Nat)
    (maxN : Int) (sh ns : List Int) (seq : Bool) (s0 : Int) (j : Nat),
    sh.getD j (-1) ≠ -1 →
    ((updShapeLoop r i nd curr maxN sh ns seq s0).2.2).getD j (-1) =
      sh.getD j (-1) := by
  induction r with
  | zero => intro i nd curr maxN sh ns seq s0 j _; rfl
  | succ r ih =>
    intro i nd curr maxN sh ns seq s0 j hj
    simp only [updShapeLoop]
    split
    · rename_i hunset
      have hne : curr + i ≠ j := by
        intro he; rw [he] at hunset; exact hj hunset
      have hset : (sh.set (curr + i) (ns.getD i 0)).getD j (-1) = sh.getD j (-1) := by
        simp [List.getD_eq_getElem?_getD, List.getElem?_set_ne hne]
      rw [ih (i + 1) nd curr maxN _ ns seq s0 j (by rw [hset]; exact hj), hset]
    · split
      · rfl
      · exact ih (i + 1) nd curr maxN sh ns seq s0 j hj

/-- When the loop finishes without reporting failure, every slot it
examined holds exactly the corresponding new dimension (it was either
filled in or already agreed).  The in-range hypothesis reflects the
callers, which always pass a shape array long enough. -/
theorem updShapeLoop_written (r : Nat) : ∀ (i : Nat) (nd : Int) (curr : Nat)
    (maxN : Int) (sh ns : List Int) (seq : Bool) (s0 : Int),
    curr + i + r ≤ sh.length →
    (updShapeLoop r i nd curr maxN sh ns seq s0).1 ≠ -1 →
    ∀ j : Nat, i ≤ j → j < i + r →
    ((updShapeLoop r i nd curr maxN sh ns seq s0).2.2).getD (curr + j) (-1) =
      ns.getD j 0 := by
  induction r with
  | zero => intro i nd curr maxN sh ns seq s0 _ _ j h1 h2; omega
  | succ r ih =>
    intro i nd curr maxN sh ns seq s0 hlen hsucc j hij hjr
    rw [updShapeLoop] at hsucc ⊢
    by_cases hunset : sh.getD (curr + i) (-1) = -1
    · rw [if_pos hunset] at hsucc ⊢
      set sh2 := sh.set (curr + i) (ns.getD i 0) with hsh2
      have hlen2 : curr + (i + 1) + r ≤ sh2.length := by
        rw [hsh2, List.length_set]; omega
      rcases Nat.eq_or_lt_of_le hij with he | hlt
      · have hin : curr + i < sh.length := by omega
        have hslot : sh2.getD (curr + i) (-1) = ns.getD i 0 := by
          rw [hsh2]
          simp [List.getD_eq_getElem?_getD, List.getElem?_set_self',
            List.getElem?_eq_getElem hin]
        rw [← he]
        rw [updShapeLoop_frame r (i + 1) nd curr maxN sh2 ns seq s0 (curr + i) (by omega)]
        exact hslot
      · exact ih (i + 1) nd curr maxN sh2 ns seq s0 hlen2 hsucc j hlt (by omega)
    · rw [if_neg hunset] at hsucc ⊢
      by_cases hagree : ns.getD i 0 ≠ sh.getD (curr + i) (-1)
      · rw [if_pos hagree] at hsucc
        exact absurd rfl hsucc
      · rw [if_neg hagree] at hsucc ⊢
        rcases Nat.eq_or_lt_of_le hij with he | hlt
        · have hkeep : ((updShapeLoop r (i + 1) nd curr maxN sh ns seq s0).2.2).getD
              (curr + i) (-1) = sh.getD (curr + i) (-1) :=
            updShapeLoop_preserve r (i + 1) nd curr maxN sh ns seq s0 (curr + i) hunset
          rw [← he, hkeep]
          push_neg at hagree
          exact hagree.symm
        · exact ih (i + 1) nd curr maxN sh ns seq s0 (by omega) hsucc j hlt (by omega)

/-- update_shape returns zero or negative one, never increases maxNdim,
and can only succeed when the new dimensions fit below maxNdim. -/
theorem update_shape_spec (curr : Nat) (maxN : Int) (sh : List Int)
    (nd : Int) (ns : List Int) (seq : Bool) :
    ((update_shape curr maxN sh nd ns seq).1 = 0 ∨
      (update_shape curr maxN sh nd ns seq).1 = -1) ∧
    (update_shape curr maxN sh nd ns seq).2.1 ≤ maxN ∧
    ((update_shape curr maxN sh nd ns seq).1 ≠ -1 →
      (curr : Int) + nd ≤ maxN) := by
  rw [update_shape]
  by_cases hover : (curr : Int) + nd > maxN
  · rw [if_pos hover]
    have h1 : (((maxN - curr).toNat : Int) + (0 : Nat) ≤ maxN - curr ∨ (maxN - curr).toNat = 0) := by
      by_cases hpos : 0 ≤ maxN - (curr : Int)
      · left; omega
      · right; omega
    have h2 : seq = true → (maxN - curr).toNat = 0 ∨ (curr : Int) ≤ maxN := by
      intro _
      by_cases hz : (maxN - curr).toNat = 0
      · exact Or.inl hz
      · right; omega
    refine ⟨?_, updShapeLoop_max_le _ 0 _ curr maxN sh ns seq (-1) h1 h2, ?_⟩
    · rcases updShapeLoop_succ_cases (maxN - curr).toNat 0 (maxN - curr) curr maxN sh ns seq (-1) with h | h
      · right; exact h
      · right; exact h
    · intro hne
      rcases updShapeLoop_succ_cases (maxN - curr).toNat 0 (maxN - curr) curr maxN sh ns seq (-1) with h | h
      · exact absurd h hne
      · exact absurd h hne
  · rw [if_neg hover]
    have h1 : ((nd.toNat : Int) + (0 : Nat) ≤ nd ∨ nd.toNat = 0) := by
      by_cases hpos : 0 ≤ nd
      · left; omega
      · right; omega
    by_cases hmid : ¬ seq = true ∧ maxN ≠ (curr : Int) + nd
    · rw [if_pos hmid]
      dsimp only
      have hseqf : seq = false := by
        rcases hmid with ⟨hs, _⟩
        revert hs; cases seq <;> simp
      have h2 : seq = true → nd.toNat = 0 ∨ (curr : Int) ≤ ((curr : Int) + nd) := by
        intro hs; rw [hseqf] at hs; exact absurd hs (by simp)
      by_cases hs0 : sh.getD ((curr : Int) + nd).toNat (-1) ≥ 0
      · rw [if_pos hs0]
        refine ⟨?_, ?_, ?_⟩
        · rcases updShapeLoop_succ_cases nd.toNat 0 nd curr ((curr : Int) + nd) sh ns seq (-1) with h | h
          · right; exact h
          · right; exact h
        · have := updShapeLoop_max_le nd.toNat 0 nd curr ((curr : Int) + nd) sh ns seq (-1) h1 h2
          omega
        · intro _; omega
      · rw [if_neg hs0]
        refine ⟨?_, ?_, ?_⟩
        · rcases updShapeLoop_succ_cases nd.toNat 0 nd curr ((curr : Int) + nd) sh ns seq 0 with h | h
          · left; exact h
          · right; exact h
        · have := updShapeLoop_max_le nd.toNat 0 nd curr ((curr : Int) + nd) sh ns seq 0 h1 h2
          omega
        · intro _; omega
    · rw [if_neg hmid]
      have h2 : seq = true → nd.toNat = 0 ∨ (curr : Int) ≤ maxN := by
        intro _
        by_cases hz : nd.toNat = 0
        · exact Or.inl hz
        · right; omega
      refine ⟨?_, updShapeLoop_max_le nd.toNat 0 nd curr maxN sh ns seq 0 h1 h2, ?_⟩
      · rcases updShapeLoop_succ_cases nd.toNat 0 nd curr maxN sh ns seq 0 with h | h
        · left; exact h
        · right; exact h
      · intro _; omega

/-- update_shape never overwrites a slot that already holds a concrete
size. -/
theorem update_shape_preserve (curr : Nat) (maxN : Int) (sh : List Int)
    (nd : Int) (ns : List Int) (seq : Bool) (j : Nat)
    (hj : sh.getD j (-1) ≠ -1) :
    ((update_shape curr maxN sh nd ns seq).2.2).getD j (-1) = sh.getD j (-1) := by
  rw [update_shape]
  by_cases hover : (curr : Int) + nd > maxN
  · rw [if_pos hover]
    exact updShapeLoop_preserve _ 0 _ curr maxN sh ns seq (-1) j hj
  · rw [if_neg hover]
    by_cases hmid : ¬ seq = true ∧ maxN ≠ (curr : Int) + nd
    · rw [if_pos hmid]
      exact updShapeLoop_preserve _ 0 _ curr _ sh ns seq _ j hj
    · rw [if_neg hmid]
      exact updShapeLoop_preserve _ 0 _ curr maxN sh ns seq 0 j hj

/-- On success update_shape has recorded exactly the new dimensions in the
slots it examined (an in-range hypothesis on the shape array as in every
reachable call). -/
theorem update_shape_written (curr : Nat) (maxN : Int) (sh : List Int)
    (nd : Int) (ns : List Int) (seq : Bool)
    (hlen : curr + nd.toNat ≤ sh.length)
    (hsucc : (update_shape curr maxN sh nd ns seq).1 = 0) :
    ∀ i : Nat, (i : Int) < nd →
    ((update_shape curr maxN sh nd ns seq).2.2).getD (curr + i) (-1) =
      ns.getD i 0 := by
  intro i hi
  have hi' : i < nd.toNat := by omega
  rw [update_shape] at hsucc ⊢
  by_cases hover : (curr : Int) + nd > maxN
  · rw [if_pos hover] at hsucc
    rcases updShapeLoop_succ_cases (maxN - curr).toNat 0 (maxN - curr) curr maxN sh ns seq (-1) with h | h
    · rw [hsucc] at h; omega
    · rw [hsucc] at h; omega
  · rw [if_neg hover] at hsucc ⊢
    by_cases hmid : ¬ seq = true ∧ maxN ≠ (curr : Int) + nd
    · rw [if_pos hmid] at hsucc ⊢
      refine updShapeLoop_written nd.toNat 0 nd curr _ sh ns seq _ (by omega) ?_ i (by omega) (by omega)
      rw [hsucc]; omega
    · rw [if_neg hmid] at hsucc ⊢
      refine updShapeLoop_written nd.toNat 0 nd curr maxN sh ns seq 0 (by omega) ?_ i (by omega) (by omega)
      rw [hsucc]; omega

/-- handle_promotion always returns zero, leaves everything unchanged when
a descriptor was requested, and never clears the sticky
promotion-failed flag. -/
theorem handle_promotion_spec (od : Option Descr) (d : Descr)
    (req : Option Descr) (fl : Flags) (pc : Nat) :
    (handle_promotion od d req fl pc).1 = 0 ∧
    (req.isSome = true → handle_promotion od d req fl pc = (0, od, fl, pc)) ∧
    (fl.promotionFailed = true →
      (handle_promotion od d req fl pc).2.2.1.promotionFailed = true) := by
  rw [handle_promotion.eq_def]
  by_cases hreq : req.isSome = true
  · rw [if_pos hreq]
    exact ⟨rfl, fun _ => rfl, fun h => h⟩
  · rw [if_neg hreq]
    refine ⟨?_, fun h => absurd h hreq, ?_⟩
    · cases od with
      | none => rfl
      | some cur =>
        dsimp only
        cases PyArray_PromoteTypes cur d with
        | none => rfl
        | some nd => rfl
    · intro h
      cases od with
      | none => exact h
      | some cur =>
        dsimp only
        cases PyArray_PromoteTypes cur d with
        | none => simp
        | some nd => exact h

/-- handle_scalar returns either an error or a value bounded by maxDims,
keeps the promotion counter with a requested descriptor, and never clears
the sticky promotion-failed flag. -/
theorem handle_scalar_spec (obj : PyObj) (curr : Nat) (maxDims : Int)
    (od : Option Descr) (sh : List Int) (fixed : Option DTypeMeta)
    (req : Option Descr) (fl : Flags) (DType : Option DTypeMeta) (pc : Nat) :
    ((handle_scalar obj curr maxDims od sh fixed req fl DType pc).ret ≤ maxDims ∨
      (handle_scalar obj curr maxDims od sh fixed req fl DType pc).ret = -1) ∧
    (req.isSome = true →
      (handle_scalar obj curr maxDims od sh fixed req fl DType pc).promoCount = pc) ∧
    (fl.promotionFailed = true →
      (handle_scalar obj curr maxDims od sh fixed req fl DType pc).flags.promotionFailed = true) := by
  rw [handle_scalar]
  cases hfs : find_scalar_descriptor fixed DType obj req with
  | error e => exact ⟨Or.inr rfl, fun _ => rfl, fun h => h⟩
  | ok descr =>
    have hupd := update_shape_spec curr maxDims sh 0 [] false
    cases hu : update_shape curr maxDims sh 0 [] false with
    | mk succ rest =>
      cases rest with
      | mk max1 shape1 =>
        rw [hu] at hupd
        dsimp only at hupd ⊢
        by_cases hsucc : succ < 0
        · rw [if_pos hsucc]
          refine ⟨Or.inl hupd.2.1, fun _ => rfl, ?_⟩
          intro h; simpa using h
        · rw [if_neg hsucc]
          have hhp := handle_promotion_spec od descr req fl pc
          cases hhp' : handle_promotion od descr req fl pc with
          | mk r rest2 =>
            cases rest2 with
            | mk od2 rest3 =>
              cases rest3 with
              | mk fl2 pc2 =>
                rw [hhp'] at hhp
                dsimp only at hhp ⊢
                have hr0 : r = 0 := hhp.1
                rw [if_neg (by omega : ¬ r < 0)]
                refine ⟨Or.inl hupd.2.1, ?_, ?_⟩
                · intro hreq
                  have h := hhp.2.1 hreq
                  have h2 := congrArg (fun q => q.2.2.2) h
                  simpa using h2
                · exact hhp.2.2

/-- applyHandleScalar: result bound, untouched state components, promotion
counter stability under a requested descriptor, and flag stickiness. -/
theorem applyHandleScalar_spec (obj : PyObj) (curr : Nat) (maxDims : Int)
    (fixed : Option DTypeMeta) (req : Option Descr) (DType : Option DTypeMeta)
    (st : DiscState) :
    ((applyHandleScalar obj curr maxDims fixed req DType st).1 ≤ maxDims ∨
      (applyHandleScalar obj curr maxDims fixed req DType st).1 = -1) ∧
    (applyHandleScalar obj curr maxDims fixed req DType st).2.cache = st.cache ∧
    (applyHandleScalar obj curr maxDims fixed req DType st).2.deepest = st.deepest ∧
    (applyHandleScalar obj curr maxDims fixed req DType st).2.reg = st.reg ∧
    (req.isSome = true →
      (applyHandleScalar obj curr maxDims fixed req DType st).2.promoCount = st.promoCount) ∧
    (st.flags.promotionFailed = true →
      (applyHandleScalar obj curr maxDims fixed req DType st).2.flags.promotionFailed = true) := by
  have h := handle_scalar_spec obj curr maxDims st.outDescr st.outShape fixed req st.flags DType st.promoCount
  rw [applyHandleScalar]
  exact ⟨h.1, rfl, rfl, rfl, h.2.1, h.2.2⟩

/-- scalarFallback: same properties as applyHandleScalar (the fallback
only additionally clears the error indicator and may set the max-dims
flag). -/
theorem scalarFallback_spec (obj : PyObj) (curr : Nat) (maxDims : Int)
    (fixed : Option DTypeMeta) (req : Option Descr) (isSeq : Bool)
    (st : DiscState) :
    ((scalarFallback obj curr maxDims fixed req isSeq st).1 ≤ maxDims ∨
      (scalarFallback obj curr maxDims fixed req isSeq st).1 = -1) ∧
    (scalarFallback obj curr maxDims fixed req isSeq st).2.cache = st.cache ∧
    (scalarFallback obj curr maxDims fixed req isSeq st).2.deepest = st.deepest ∧
    (req.isSome = true →
      (scalarFallback obj curr maxDims fixed req isSeq st).2.promoCount = st.promoCount) ∧
    (st.flags.promotionFailed = true →
      (scalarFallback obj curr maxDims fixed req isSeq st).2.flags.promotionFailed = true) := by
  rw [scalarFallback]
  have h := applyHandleScalar_spec obj curr maxDims fixed req none {st with exc := none}
  cases hA : applyHandleScalar obj curr maxDims fixed req none {st with exc := none} with
  | mk ret st2 =>
    rw [hA] at h
    dsimp only at h ⊢
    by_cases hseq : isSeq = true
    · rw [if_pos hseq]
      exact ⟨h.1, h.2.1, h.2.2.1, h.2.2.2.2.1, fun hp => h.2.2.2.2.2 hp⟩
    · rw [if_neg hseq]
      exact ⟨h.1, h.2.1, h.2.2.1, h.2.2.2.2.1, fun hp => h.2.2.2.2.2 hp⟩

/-- scalarStep in its continue case only updates the registry. -/
theorem scalarStep_inr_spec (obj : PyObj) (curr : Nat) (maxDims : Int)
    (fixed : Option DTypeMeta) (req : Option Descr) (st st1 : DiscState)
    (h : scalarStep obj curr maxDims fixed req st = Sum.inr st1) :
    st1.outDescr = st.outDescr ∧ st1.outShape = st.outShape ∧
    st1.cache = st.cache ∧ st1.flags = st.flags ∧ st1.exc = st.exc ∧
    st1.promoCount = st.promoCount ∧ st1.deepest = st.deepest := by
  rw [scalarStep] at h
  cases hd : discover_dtype_from_pyobject st.reg obj fixed with
  | mk dt reg1 =>
    rw [hd] at h
    cases dt with
    | some D => simp at h
    | none =>
      simp only [Sum.inr.injEq] at h
      rw [← h]
      exact ⟨rfl, rfl, rfl, rfl, rfl, rfl, rfl⟩

/-- scalarStep in its scalar case has the applyHandleScalar properties. -/
theorem scalarStep_inl_spec (obj : PyObj) (curr : Nat) (maxDims : Int)
    (fixed : Option DTypeMeta) (req : Option Descr) (st : DiscState)
    (ret : Int) (st1 : DiscState)
    (h : scalarStep obj curr maxDims fixed req st = Sum.inl (ret, st1)) :
    (ret ≤ maxDims ∨ ret = -1) ∧ st1.cache = st.cache ∧
    st1.deepest = st.deepest ∧
    (req.isSome = true → st1.promoCount = st.promoCount) ∧
    (st.flags.promotionFailed = true → st1.flags.promotionFailed = true) := by
  rw [scalarStep] at h
  cases hd : discover_dtype_from_pyobject st.reg obj fixed with
  | mk dt reg1 =>
    rw [hd] at h
    cases dt with
    | none => simp at h
    | some D =>
      simp only [Sum.inl.injEq] at h
      have hs := applyHandleScalar_spec obj curr maxDims fixed req (some D) {st with reg := reg1}
      cases hA : applyHandleScalar obj curr maxDims fixed req (some D) {st with reg := reg1} with
      | mk ret2 st2 =>
        rw [hA] at h hs
        have hr : ret2 = ret := by
          have := congrArg (fun q => q.1) h; simpa using this
        have hst : st2 = st1 := by
          have := congrArg (fun q => q.2) h; simpa using this
        rw [hr, hst] at hs
        exact ⟨hs.1, hs.2.1, hs.2.2.1, hs.2.2.2.2.1, hs.2.2.2.2.2⟩

/-- The object-dtype element loop returns zero or negative one, leaves the
shape, cache and depth record untouched, and never clears the sticky
promotion-failed flag. -/
theorem objectElemsLoop_spec : ∀ (elems : PyObjList) (f : DTypeMeta) (st : DiscState),
    ((objectElemsLoop elems f st).1 = 0 ∨ (objectElemsLoop elems f st).1 = -1) ∧
    (objectElemsLoop elems f st).2.outShape = st.outShape ∧
    (objectElemsLoop elems f st).2.cache = st.cache ∧
    (objectElemsLoop elems f st).2.deepest = st.deepest ∧
    (st.flags.promotionFailed = true →
      (objectElemsLoop elems f st).2.flags.promotionFailed = true)
  | PyObjList.nil, f, st => ⟨Or.inl rfl, rfl, rfl, rfl, fun h => h⟩
  | PyObjList.cons elem rest, f, st => by
    rw [objectElemsLoop]
    cases hd : discover_dtype_from_pyobject st.reg elem (some f) with
    | mk dt reg1 =>
      dsimp only
      have hhs := handle_scalar_spec elem 0 0 st.outDescr [] dt none st.flags (some f) st.promoCount
      by_cases hret : (handle_scalar elem 0 0 st.outDescr [] dt none st.flags (some f) st.promoCount).ret < 0
      · rw [if_pos hret]
        exact ⟨Or.inr rfl, rfl, rfl, rfl, fun h => hhs.2.2 h⟩
      · rw [if_neg hret]
        have ihr := objectElemsLoop_spec rest f {
          outDescr := (handle_scalar elem 0 0 st.outDescr [] dt none st.flags (some f) st.promoCount).outDescr,
          outShape := st.outShape, cache := st.cache,
          flags := (handle_scalar elem 0 0 st.outDescr [] dt none st.flags (some f) st.promoCount).flags,
          reg := reg1,
          exc := if (handle_scalar elem 0 0 st.outDescr [] dt none st.flags (some f) st.promoCount).exc.isSome then (handle_scalar elem 0 0 st.outDescr [] dt none st.flags (some f) st.promoCount).exc else st.exc,
          promoCount := (handle_scalar elem 0 0 st.outDescr [] dt none st.flags (some f) st.promoCount).promoCount,
          deepest := st.deepest }
        refine ⟨ihr.1, ihr.2.1, ihr.2.2.1, ihr.2.2.2.1, ?_⟩
        intro h
        exact ihr.2.2.2.2 (hhs.2.2 h)

/-- arrayCastPromote: result bound, untouched components, stickiness. -/
theorem arrayCastPromote_spec (adescr : Descr) (fixed : Option DTypeMeta)
    (req : Option Descr) (max1 : Int) (st : DiscState) :
    ((arrayCastPromote adescr fixed req max1 st).1 = max1 ∨
      (arrayCastPromote adescr fixed req max1 st).1 = -1) ∧
    (arrayCastPromote adescr fixed req max1 st).2.outShape = st.outShape ∧
    (arrayCastPromote adescr fixed req max1 st).2.cache = st.cache ∧
    (arrayCastPromote adescr fixed req max1 st).2.deepest = st.deepest ∧
    (req.isSome = true →
      (arrayCastPromote adescr fixed req max1 st).2.promoCount = st.promoCount) ∧
    (st.flags.promotionFailed = true →
      (arrayCastPromote adescr fixed req max1 st).2.flags.promotionFailed = true) := by
  rw [arrayCastPromote]
  cases hc : cast_descriptor_to_fixed_dtype adescr fixed with
  | error e => exact ⟨Or.inr rfl, rfl, rfl, rfl, fun _ => rfl, fun h => h⟩
  | ok dcast =>
    have hhp := handle_promotion_spec st.outDescr dcast req st.flags st.promoCount
    cases hp : handle_promotion st.outDescr dcast req st.flags st.promoCount with
    | mk r rest2 =>
      cases rest2 with
      | mk od2 rest3 =>
        cases rest3 with
        | mk fl2 pc2 =>
          rw [hp] at hhp
          dsimp only
          rw [hp]
          dsimp only at hhp ⊢
          refine ⟨Or.inl rfl, rfl, rfl, rfl, ?_, ?_⟩
          · intro hreq
            have h2 := congrArg (fun q => q.2.2.2) (hhp.2.1 hreq)
            simpa using h2
          · exact hhp.2.2

/-- arrayBranch: result bound, depth record untouched, promotion counter
stability under a requested descriptor, and flag stickiness. -/
theorem arrayBranch_spec (obj : PyObj) (ashape : List Int) (adescr : Descr)
    (aelems : PyObjList) (curr : Nat) (maxDims : Int)
    (fixed : Option DTypeMeta) (req : Option Descr) (st : DiscState) :
    ((arrayBranch obj ashape adescr aelems curr maxDims fixed req st).1 ≤ maxDims ∨
      (arrayBranch obj ashape adescr aelems curr maxDims fixed req st).1 = -1) ∧
    (arrayBranch obj ashape adescr aelems curr maxDims fixed req st).2.deepest = st.deepest ∧
    (req.isSome = true →
      (arrayBranch obj ashape adescr aelems curr maxDims fixed req st).2.promoCount = st.promoCount) ∧
    (st.flags.promotionFailed = true →
      (arrayBranch obj ashape adescr aelems curr maxDims fixed req st).2.flags.promotionFailed = true) := by
  rw [arrayBranch]
  have hupd := update_shape_spec curr maxDims st.outShape (ashape.length : Int) ashape false
  cases hu : update_shape curr maxDims st.outShape (ashape.length : Int) ashape false with
  | mk succ rest =>
    cases rest with
    | mk max1 shape1 =>
      rw [hu] at hupd
      dsimp only at hupd ⊢
      by_cases hsucc : succ < 0
      · rw [if_pos hsucc]
        refine ⟨Or.inl hupd.2.1, rfl, fun _ => rfl, ?_⟩
        intro h; simpa using h
      · rw [if_neg hsucc]
        cases fixed with
        | some f =>
          dsimp only
          by_cases hobj : adescr.typeNum = TypeNum.tObject ∧ f.parametric = true ∧ req = none
          · rw [if_pos hobj]
            set stp : DiscState := {st with
              cache := npy_new_coercion_cache st.cache obj (PyObj.npArray ashape adescr aelems) false,
              outShape := shape1} with hstp
            have hol := objectElemsLoop_spec aelems f stp
            cases ho : objectElemsLoop aelems f stp with
            | mk r st2 =>
              rw [ho] at hol
              dsimp only at hol ⊢
              by_cases hr : r < 0
              · rw [if_pos hr]
                refine ⟨Or.inr rfl, hol.2.2.2.1, ?_, ?_⟩
                · intro hreq
                  rcases hobj with ⟨_, _, hnone⟩
                  rw [hnone] at hreq
                  simp at hreq
                · intro h; exact hol.2.2.2.2 h
              · rw [if_neg hr]
                refine ⟨Or.inl hupd.2.1, hol.2.2.2.1, ?_, ?_⟩
                · intro hreq
                  rcases hobj with ⟨_, _, hnone⟩
                  rw [hnone] at hreq
                  simp at hreq
                · intro h; exact hol.2.2.2.2 h
          · rw [if_neg hobj]
            by_cases hreqn : req = none
            · rw [if_pos hreqn]
              have hacp := arrayCastPromote_spec adescr (some f) req max1 {st with
                cache := npy_new_coercion_cache st.cache obj (PyObj.npArray ashape adescr aelems) false,
                outShape := shape1}
              refine ⟨?_, hacp.2.2.2.1, hacp.2.2.2.2.1, hacp.2.2.2.2.2⟩
              rcases hacp.1 with h | h
              · rw [h]; exact Or.inl hupd.2.1
              · exact Or.inr h
            · rw [if_neg hreqn]
              exact ⟨Or.inl hupd.2.1, rfl, fun _ => rfl, fun h => h⟩
        | none =>
          dsimp only
          by_cases hreqn : req = none
          · rw [if_pos hreqn]
            have hacp := arrayCastPromote_spec adescr none req max1 {st with
              cache := npy_new_coercion_cache st.cache obj (PyObj.npArray ashape adescr aelems) false,
              outShape := shape1}
            refine ⟨?_, hacp.2.2.2.1, hacp.2.2.2.2.1, hacp.2.2.2.2.2⟩
            rcases hacp.1 with h | h
            · rw [h]; exact Or.inl hupd.2.1
            · exact Or.inr h
          · rw [if_neg hreqn]
            exact ⟨Or.inl hupd.2.1, rfl, fun _ => rfl, fun h => h⟩

/-- seqProlog: in the done case the result is bounded by maxDims; in the
continue case the returned bound is at most maxDims, the next depth is
still within the bound, and the untouched components carry over; the
sticky flag survives either way. -/
theorem seqProlog_spec (obj : PyObj) (xs : PyObjList) (curr : Nat)
    (maxDims : Int) (st : DiscState) :
    (∀ ret st1, seqProlog obj xs curr maxDims st = Sum.inl (ret, st1) →
      (ret ≤ maxDims ∨ ret = -1) ∧ st1.deepest = st.deepest ∧
      st1.promoCount = st.promoCount ∧
      (st.flags.promotionFailed = true → st1.flags.promotionFailed = true)) ∧
    (∀ m1 st1, seqProlog obj xs curr maxDims st = Sum.inr (m1, st1) →
      m1 ≤ maxDims ∧ (curr : Int) + 1 ≤ maxDims ∧ st1.deepest = st.deepest ∧
      st1.promoCount = st.promoCount ∧ st1.flags = st.flags) := by
  rw [seqProlog]
  have hupd := update_shape_spec curr maxDims st.outShape 1 [(lengthL xs : Int)] true
  cases hu : update_shape curr maxDims st.outShape 1 [(lengthL xs : Int)] true with
  | mk succ rest =>
    cases rest with
    | mk max1 shape1 =>
      rw [hu] at hupd
      dsimp only at hupd ⊢
      by_cases hsucc : succ < 0
      · rw [if_pos hsucc]
        constructor
        · intro ret st1 h
          simp only [Sum.inl.injEq, Prod.mk.injEq] at h
          rcases h with ⟨hret, hst⟩
          rw [← hret, ← hst]
          refine ⟨Or.inl hupd.2.1, rfl, rfl, ?_⟩
          intro hpf; simpa using hpf
        · intro m1 st1 h
          simp at h
      · rw [if_neg hsucc]
        have hbound : (curr : Int) + 1 ≤ maxDims := by
          refine hupd.2.2 ?_
          rcases hupd.1 with h | h
          · omega
          · omega
        by_cases hlen : lengthL xs = 0
        · rw [if_pos hlen]
          constructor
          · intro ret st1 h
            simp only [Sum.inl.injEq, Prod.mk.injEq] at h
            rcases h with ⟨hret, hst⟩
            rw [← hret, ← hst]
            exact ⟨Or.inl hbound, rfl, rfl, fun hpf => hpf⟩
          · intro m1 st1 h
            simp at h
        · rw [if_neg hlen]
          constructor
          · intro ret st1 h
            simp at h
          · intro m1 st1 h
            simp only [Sum.inr.injEq, Prod.mk.injEq] at h
            rcases h with ⟨hm, hst⟩
            rw [← hm, ← hst]
            exact ⟨hupd.2.1, hbound, rfl, rfl, rfl⟩

/-- The recorded depth after the entry update stays within the master
bound. -/
theorem stD_deep_le (d curr : Nat) (maxD : Int) :
    Nat.max d curr ≤ Nat.max d (Nat.max curr maxD.toNat) :=
  max_le_max (le_refl d) (le_max_left curr maxD.toNat)

/-- Chaining the depth bound across one loop iteration of the item loop. -/
theorem deep_chain_items (x d2 d curr : Nat) (m maxD : Int)
    (h1 : x ≤ Nat.max d2 (Nat.max curr m.toNat))
    (h2 : d2 ≤ Nat.max d (Nat.max curr maxD.toNat))
    (hm : m ≤ maxD) (hd : 0 ≤ maxD) : x ≤ Nat.max d (Nat.max curr maxD.toNat) := by
  have hmt : m.toNat ≤ maxD.toNat := by omega
  have h3 : Nat.max curr m.toNat ≤ Nat.max curr maxD.toNat :=
    max_le_max (le_refl curr) hmt
  have h4 : Nat.max curr m.toNat ≤ Nat.max d (Nat.max curr maxD.toNat) :=
    le_trans h3 (le_max_right d (Nat.max curr maxD.toNat))
  exact le_trans h1 (Nat.max_le.mpr ⟨h2, h4⟩)

/-- Chaining the depth bound from a node into its item loop one level
deeper. -/
theorem deep_chain_seq (x d curr : Nat) (m1 maxD : Int)
    (h1 : x ≤ Nat.max (Nat.max d curr) (Nat.max (curr + 1) m1.toNat))
    (hm : m1 ≤ maxD) (hc : (curr : Int) + 1 ≤ maxD) :
    x ≤ Nat.max d (Nat.max curr maxD.toNat) := by
  have hc1 : curr + 1 ≤ maxD.toNat := by omega
  have hmt : m1.toNat ≤ maxD.toNat := by omega
  have hA : d ≤ Nat.max d (Nat.max curr maxD.toNat) := le_max_left _ _
  have hB : curr ≤ Nat.max d (Nat.max curr maxD.toNat) :=
    le_trans (le_max_left curr maxD.toNat) (le_max_right d _)
  have hT : maxD.toNat ≤ Nat.max d (Nat.max curr maxD.toNat) :=
    le_trans (le_max_right curr maxD.toNat) (le_max_right d _)
  refine le_trans h1 (Nat.max_le.mpr ⟨Nat.max_le.mpr ⟨hA, hB⟩, Nat.max_le.mpr ⟨?_, ?_⟩⟩)
  · exact le_trans hc1 hT
  · exact le_trans hmt hT

mutual
/-- Master invariant of the recursive discovery: the returned bound never
exceeds the given one (or is the error value), the recursion never visits
a depth beyond the given bound (and the depths already recorded), the
promotion machinery is never invoked when the caller fixed a descriptor
instance, and the promotion-failed flag is sticky. -/
theorem PyArray_DiscoverDTypeAndShape_Recursive_master :
    ∀ (obj : PyObj) (curr : Nat) (maxDims : Int) (fixed : Option DTypeMeta)
      (req : Option Descr) (st : DiscState),
    ((PyArray_DiscoverDTypeAndShape_Recursive obj curr maxDims fixed req st).1 ≤ maxDims ∨
      (PyArray_DiscoverDTypeAndShape_Recursive obj curr maxDims fixed req st).1 = -1) ∧
    (PyArray_DiscoverDTypeAndShape_Recursive obj curr maxDims fixed req st).2.deepest ≤
      Nat.max st.deepest (Nat.max curr maxDims.toNat) ∧
    (req.isSome = true →
      (PyArray_DiscoverDTypeAndShape_Recursive obj curr maxDims fixed req st).2.promoCount = st.promoCount) ∧
    (st.flags.promotionFailed = true →
      (PyArray_DiscoverDTypeAndShape_Recursive obj curr maxDims fixed req st).2.flags.promotionFailed = true)
  | PyObj.pyInt, curr, maxDims, fixed, req, st => by
    rw [PyArray_DiscoverDTypeAndShape_Recursive]
    set std : DiscState := {st with deepest := Nat.max st.deepest curr} with hstd
    cases hss : scalarStep PyObj.pyInt curr maxDims fixed req std with
    | inl res =>
      cases res with
      | mk ret st1 =>
        try dsimp only
        have hs := scalarStep_inl_spec PyObj.pyInt curr maxDims fixed req std ret st1 hss
        refine ⟨hs.1, ?_, ?_, ?_⟩
        · rw [hs.2.2.1, hstd]; exact stD_deep_le st.deepest curr maxDims
        · exact hs.2.2.2.1
        · exact hs.2.2.2.2
    | inr st1 =>
      try dsimp only
      have hs := scalarStep_inr_spec PyObj.pyInt curr maxDims fixed req std st1 hss
      have hf := scalarFallback_spec PyObj.pyInt curr maxDims fixed req false st1
      refine ⟨hf.1, ?_, ?_, ?_⟩
      · rw [hf.2.2.1, hs.2.2.2.2.2.2, hstd]; exact stD_deep_le st.deepest curr maxDims
      · intro hq; rw [hf.2.2.2.1 hq, hs.2.2.2.2.2.1, hstd]
      · intro hq
        refine hf.2.2.2.2 ?_
        rw [hs.2.2.2.1, hstd]
        exact hq
  | PyObj.pyFloat, curr, maxDims, fixed, req, st => by
    rw [PyArray_DiscoverDTypeAndShape_Recursive]
    set std : DiscState := {st with deepest := Nat.max st.deepest curr} with hstd
    cases hss : scalarStep PyObj.pyFloat curr maxDims fixed req std with
    | inl res =>
      cases res with
      | mk ret st1 =>
        try dsimp only
        have hs := scalarStep_inl_spec PyObj.pyFloat curr maxDims fixed req std ret st1 hss
        refine ⟨hs.1, ?_, ?_, ?_⟩
        · rw [hs.2.2.1, hstd]; exact stD_deep_le st.deepest curr maxDims
        · exact hs.2.2.2.1
        · exact hs.2.2.2.2
    | inr st1 =>
      try dsimp only
      have hs := scalarStep_inr_spec PyObj.pyFloat curr maxDims fixed req std st1 hss
      have hf := scalarFallback_spec PyObj.pyFloat curr maxDims fixed req false st1
      refine ⟨hf.1, ?_, ?_, ?_⟩
      · rw [hf.2.2.1, hs.2.2.2.2.2.2, hstd]; exact stD_deep_le st.deepest curr maxDims
      · intro hq; rw [hf.2.2.2.1 hq, hs.2.2.2.2.2.1, hstd]
      · intro hq
        refine hf.2.2.2.2 ?_
        rw [hs.2.2.2.1, hstd]
        exact hq
  | PyObj.npScalar d, curr, maxDims, fixed, req, st => by
    rw [PyArray_DiscoverDTypeAndShape_Recursive]
    set std : DiscState := {st with deepest := Nat.max st.deepest curr} with hstd
    cases hss : scalarStep (PyObj.npScalar d) curr maxDims fixed req std with
    | inl res =>
      cases res with
      | mk ret st1 =>
        try dsimp only
        have hs := scalarStep_inl_spec (PyObj.npScalar d) curr maxDims fixed req std ret st1 hss
        refine ⟨hs.1, ?_, ?_, ?_⟩
        · rw [hs.2.2.1, hstd]; exact stD_deep_le st.deepest curr maxDims
        · exact hs.2.2.2.1
        · exact hs.2.2.2.2
    | inr st1 =>
      try dsimp only
      have hs := scalarStep_inr_spec (PyObj.npScalar d) curr maxDims fixed req std st1 hss
      have hf := scalarFallback_spec (PyObj.npScalar d) curr maxDims fixed req false st1
      refine ⟨hf.1, ?_, ?_, ?_⟩
      · rw [hf.2.2.1, hs.2.2.2.2.2.2, hstd]; exact stD_deep_le st.deepest curr maxDims
      · intro hq; rw [hf.2.2.2.1 hq, hs.2.2.2.2.2.1, hstd]
      · intro hq
        refine hf.2.2.2.2 ?_
        rw [hs.2.2.2.1, hstd]
        exact hq
  | PyObj.opaqueObj, curr, maxDims, fixed, req, st => by
    rw [PyArray_DiscoverDTypeAndShape_Recursive]
    set std : DiscState := {st with deepest := Nat.max st.deepest curr} with hstd
    cases hss : scalarStep PyObj.opaqueObj curr maxDims fixed req std with
    | inl res =>
      cases res with
      | mk ret st1 =>
        try dsimp only
        have hs := scalarStep_inl_spec PyObj.opaqueObj curr maxDims fixed req std ret st1 hss
        refine ⟨hs.1, ?_, ?_, ?_⟩
        · rw [hs.2.2.1, hstd]; exact stD_deep_le st.deepest curr maxDims
        · exact hs.2.2.2.1
        · exact hs.2.2.2.2
    | inr st1 =>
      try dsimp only
      have hs := scalarStep_inr_spec PyObj.opaqueObj curr maxDims fixed req std st1 hss
      have hf := scalarFallback_spec PyObj.opaqueObj curr maxDims fixed req false st1
      refine ⟨hf.1, ?_, ?_, ?_⟩
      · rw [hf.2.2.1, hs.2.2.2.2.2.2, hstd]; exact stD_deep_le st.deepest curr maxDims
      · intro hq; rw [hf.2.2.2.1 hq, hs.2.2.2.2.2.1, hstd]
      · intro hq
        refine hf.2.2.2.2 ?_
        rw [hs.2.2.2.1, hstd]
        exact hq
  | PyObj.pyChar, curr, maxDims, fixed, req, st => by
    rw [PyArray_DiscoverDTypeAndShape_Recursive]
    set std : DiscState := {st with deepest := Nat.max st.deepest curr} with hstd
    cases hss : scalarStep PyObj.pyChar curr maxDims fixed req std with
    | inl res =>
      cases res with
      | mk ret st1 =>
        try dsimp only
        have hs := scalarStep_inl_spec PyObj.pyChar curr maxDims fixed req std ret st1 hss
        refine ⟨hs.1, ?_, ?_, ?_⟩
        · rw [hs.2.2.1, hstd]; exact stD_deep_le st.deepest curr maxDims
        · exact hs.2.2.2.1
        · exact hs.2.2.2.2
    | inr st1 =>
      try dsimp only
      have hs := scalarStep_inr_spec PyObj.pyChar curr maxDims fixed req std st1 hss
      by_cases hcm : (curr : Int) = maxDims
      · rw [if_pos hcm]
        have hf := scalarFallback_spec PyObj.pyChar curr maxDims fixed req true st1
        refine ⟨hf.1, ?_, ?_, ?_⟩
        · rw [hf.2.2.1, hs.2.2.2.2.2.2, hstd]; exact stD_deep_le st.deepest curr maxDims
        · intro hq; rw [hf.2.2.2.1 hq, hs.2.2.2.2.2.1, hstd]
        · intro hq
          refine hf.2.2.2.2 ?_
          rw [hs.2.2.2.1, hstd]
          exact hq
      · rw [if_neg hcm]
        refine ⟨Or.inr rfl, ?_, ?_, ?_⟩
        · show st1.deepest ≤ _
          rw [hs.2.2.2.2.2.2, hstd]; exact stD_deep_le st.deepest curr maxDims
        · intro hq
          show st1.promoCount = st.promoCount
          rw [hs.2.2.2.2.2.1, hstd]
        · intro hq
          show st1.flags.promotionFailed = true
          rw [hs.2.2.2.1, hstd]
          exact hq
  | PyObj.badSequence, curr, maxDims, fixed, req, st => by
    rw [PyArray_DiscoverDTypeAndShape_Recursive]
    set std : DiscState := {st with deepest := Nat.max st.deepest curr} with hstd
    cases hss : scalarStep PyObj.badSequence curr maxDims fixed req std with
    | inl res =>
      cases res with
      | mk ret st1 =>
        try dsimp only
        have hs := scalarStep_inl_spec PyObj.badSequence curr maxDims fixed req std ret st1 hss
        refine ⟨hs.1, ?_, ?_, ?_⟩
        · rw [hs.2.2.1, hstd]; exact stD_deep_le st.deepest curr maxDims
        · exact hs.2.2.2.1
        · exact hs.2.2.2.2
    | inr st1 =>
      try dsimp only
      have hs := scalarStep_inr_spec PyObj.badSequence curr maxDims fixed req std st1 hss
      by_cases hcm : (curr : Int) = maxDims
      · rw [if_pos hcm]
        have hf := scalarFallback_spec PyObj.badSequence curr maxDims fixed req true st1
        refine ⟨hf.1, ?_, ?_, ?_⟩
        · rw [hf.2.2.1, hs.2.2.2.2.2.2, hstd]; exact stD_deep_le st.deepest curr maxDims
        · intro hq; rw [hf.2.2.2.1 hq, hs.2.2.2.2.2.1, hstd]
        · intro hq
          refine hf.2.2.2.2 ?_
          rw [hs.2.2.2.1, hstd]
          exact hq
      · rw [if_neg hcm]
        refine ⟨Or.inr rfl, ?_, ?_, ?_⟩
        · show st1.deepest ≤ _
          rw [hs.2.2.2.2.2.2, hstd]; exact stD_deep_le st.deepest curr maxDims
        · intro hq
          show st1.promoCount = st.promoCount
          rw [hs.2.2.2.2.2.1, hstd]
        · intro hq
          show st1.flags.promotionFailed = true
          rw [hs.2.2.2.1, hstd]
          exact hq
  | PyObj.badArrayLike, curr, maxDims, fixed, req, st => by
    rw [PyArray_DiscoverDTypeAndShape_Recursive]
    set std : DiscState := {st with deepest := Nat.max st.deepest curr} with hstd
    cases hss : scalarStep PyObj.badArrayLike curr maxDims fixed req std with
    | inl res =>
      cases res with
      | mk ret st1 =>
        try dsimp only
        have hs := scalarStep_inl_spec PyObj.badArrayLike curr maxDims fixed req std ret st1 hss
        refine ⟨hs.1, ?_, ?_, ?_⟩
        · rw [hs.2.2.1, hstd]; exact stD_deep_le st.deepest curr maxDims
        · exact hs.2.2.2.1
        · exact hs.2.2.2.2
    | inr st1 =>
      try dsimp only
      have hs := scalarStep_inr_spec PyObj.badArrayLike curr maxDims fixed req std st1 hss
      refine ⟨Or.inr rfl, ?_, ?_, ?_⟩
      · show st1.deepest ≤ _
        rw [hs.2.2.2.2.2.2, hstd]; exact stD_deep_le st.deepest curr maxDims
      · intro hq
        show st1.promoCount = st.promoCount
        rw [hs.2.2.2.2.2.1, hstd]
      · intro hq
        show st1.flags.promotionFailed = true
        rw [hs.2.2.2.1, hstd]
        exact hq
  | PyObj.dictLike, curr, maxDims, fixed, req, st => by
    rw [PyArray_DiscoverDTypeAndShape_Recursive]
    set std : DiscState := {st with deepest := Nat.max st.deepest curr} with hstd
    cases hss : scalarStep PyObj.dictLike curr maxDims fixed req std with
    | inl res =>
      cases res with
      | mk ret st1 =>
        try dsimp only
        have hs := scalarStep_inl_spec PyObj.dictLike curr maxDims fixed req std ret st1 hss
        refine ⟨hs.1, ?_, ?_, ?_⟩
        · rw [hs.2.2.1, hstd]; exact stD_deep_le st.deepest curr maxDims
        · exact hs.2.2.2.1
        · exact hs.2.2.2.2
    | inr st1 =>
      try dsimp only
      have hs := scalarStep_inr_spec PyObj.dictLike curr maxDims fixed req std st1 hss
      by_cases hcm : (curr : Int) = maxDims
      · rw [if_pos hcm]
        have hf := scalarFallback_spec PyObj.dictLike curr maxDims fixed req true st1
        refine ⟨hf.1, ?_, ?_, ?_⟩
        · rw [hf.2.2.1, hs.2.2.2.2.2.2, hstd]; exact stD_deep_le st.deepest curr maxDims
        · intro hq; rw [hf.2.2.2.1 hq, hs.2.2.2.2.2.1, hstd]
        · intro hq
          refine hf.2.2.2.2 ?_
          rw [hs.2.2.2.1, hstd]
          exact hq
      · rw [if_neg hcm]
        have ha := applyHandleScalar_spec PyObj.dictLike curr maxDims fixed req none {st1 with exc := none}
        refine ⟨ha.1, ?_, ?_, ?_⟩
        · rw [ha.2.2.1]
          show st1.deepest ≤ _
          rw [hs.2.2.2.2.2.2, hstd]; exact stD_deep_le st.deepest curr maxDims
        · intro hq
          rw [ha.2.2.2.2.1 hq]
          show st1.promoCount = st.promoCount
          rw [hs.2.2.2.2.2.1, hstd]
        · intro hq
          refine ha.2.2.2.2.2 ?_
          show st1.flags.promotionFailed = true
          rw [hs.2.2.2.1, hstd]
          exact hq
  | PyObj.npArray ashape adescr aelems, curr, maxDims, fixed, req, st => by
    rw [PyArray_DiscoverDTypeAndShape_Recursive]
    set std : DiscState := {st with deepest := Nat.max st.deepest curr} with hstd
    cases hss : scalarStep (PyObj.npArray ashape adescr aelems) curr maxDims fixed req std with
    | inl res =>
      cases res with
      | mk ret st1 =>
        try dsimp only
        have hs := scalarStep_inl_spec (PyObj.npArray ashape adescr aelems) curr maxDims fixed req std ret st1 hss
        refine ⟨hs.1, ?_, ?_, ?_⟩
        · rw [hs.2.2.1, hstd]; exact stD_deep_le st.deepest curr maxDims
        · exact hs.2.2.2.1
        · exact hs.2.2.2.2
    | inr st1 =>
      try dsimp only
      have hs := scalarStep_inr_spec (PyObj.npArray ashape adescr aelems) curr maxDims fixed req std st1 hss
      have hb := arrayBranch_spec (PyObj.npArray ashape adescr aelems) ashape adescr aelems curr maxDims fixed req st1
      refine ⟨hb.1, ?_, ?_, ?_⟩
      · rw [hb.2.1, hs.2.2.2.2.2.2, hstd]; exact stD_deep_le st.deepest curr maxDims
      · intro hq; rw [hb.2.2.1 hq, hs.2.2.2.2.2.1, hstd]
      · intro hq
        refine hb.2.2.2 ?_
        rw [hs.2.2.2.1, hstd]
        exact hq
  | PyObj.arrayLike ashape adescr, curr, maxDims, fixed, req, st => by
    rw [PyArray_DiscoverDTypeAndShape_Recursive]
    set std : DiscState := {st with deepest := Nat.max st.deepest curr} with hstd
    cases hss : scalarStep (PyObj.arrayLike ashape adescr) curr maxDims fixed req std with
    | inl res =>
      cases res with
      | mk ret st1 =>
        try dsimp only
        have hs := scalarStep_inl_spec (PyObj.arrayLike ashape adescr) curr maxDims fixed req std ret st1 hss
        refine ⟨hs.1, ?_, ?_, ?_⟩
        · rw [hs.2.2.1, hstd]; exact stD_deep_le st.deepest curr maxDims
        · exact hs.2.2.2.1
        · exact hs.2.2.2.2
    | inr st1 =>
      try dsimp only
      have hs := scalarStep_inr_spec (PyObj.arrayLike ashape adescr) curr maxDims fixed req std st1 hss
      have hb := arrayBranch_spec (PyObj.arrayLike ashape adescr) ashape adescr PyObjList.nil curr maxDims fixed req st1
      refine ⟨hb.1, ?_, ?_, ?_⟩
      · rw [hb.2.1, hs.2.2.2.2.2.2, hstd]; exact stD_deep_le st.deepest curr maxDims
      · intro hq; rw [hb.2.2.1 hq, hs.2.2.2.2.2.1, hstd]
      · intro hq
        refine hb.2.2.2 ?_
        rw [hs.2.2.2.1, hstd]
        exact hq
  | PyObj.pyStr cs, curr, maxDims, fixed, req, st => by
    rw [PyArray_DiscoverDTypeAndShape_Recursive]
    set std : DiscState := {st with deepest := Nat.max st.deepest curr} with hstd
    have hdeep : std.deepest = Nat.max st.deepest curr := rfl
    by_cases hforce : std.flags.discoverStringsAsSequences = true ∧ lengthL cs ≠ 1
    · rw [if_pos hforce]
      have hsp := seqProlog_spec (PyObj.pyStr cs) cs curr maxDims std
      cases hP : seqProlog (PyObj.pyStr cs) cs curr maxDims std with
      | inl res =>
        cases res with
        | mk ret st1 =>
          try dsimp only
          have h1 := hsp.1 ret st1 hP
          refine ⟨h1.1, ?_, ?_, ?_⟩
          · rw [h1.2.1, hdeep]; exact stD_deep_le st.deepest curr maxDims
          · intro hq; rw [h1.2.2.1]
          · intro hq; exact h1.2.2.2 hq
      | inr res =>
        cases res with
        | mk m1 st2 =>
          try dsimp only
          have h2 := hsp.2 m1 st2 hP
          have hit := discoverItems_master cs (curr + 1) m1 fixed req st2
          refine ⟨?_, ?_, ?_, ?_⟩
          · rcases hit.1 with h | h
            · left; omega
            · right; exact h
          · refine deep_chain_seq _ st.deepest curr m1 maxDims ?_ h2.1 h2.2.1
            have := hit.2.1
            rw [h2.2.2.1, hdeep] at this
            exact this
          · intro hq
            rw [hit.2.2.1 hq, h2.2.2.2.1, hstd]
          · intro hq
            refine hit.2.2.2 ?_
            rw [h2.2.2.2.2]
            exact hq
    · rw [if_neg hforce]
      cases hss : scalarStep (PyObj.pyStr cs) curr maxDims fixed req std with
      | inl res =>
        cases res with
        | mk ret st1 =>
          try dsimp only
          have hs := scalarStep_inl_spec (PyObj.pyStr cs) curr maxDims fixed req std ret st1 hss
          refine ⟨hs.1, ?_, ?_, ?_⟩
          · rw [hs.2.2.1, hstd]; exact stD_deep_le st.deepest curr maxDims
          · exact hs.2.2.2.1
          · exact hs.2.2.2.2
      | inr st1 =>
        try dsimp only
        have hs := scalarStep_inr_spec (PyObj.pyStr cs) curr maxDims fixed req std st1 hss
        by_cases hcm : (curr : Int) = maxDims
        · rw [if_pos hcm]
          have hf := scalarFallback_spec (PyObj.pyStr cs) curr maxDims fixed req true st1
          refine ⟨hf.1, ?_, ?_, ?_⟩
          · rw [hf.2.2.1, hs.2.2.2.2.2.2, hstd]; exact stD_deep_le st.deepest curr maxDims
          · intro hq; rw [hf.2.2.2.1 hq, hs.2.2.2.2.2.1, hstd]
          · intro hq
            refine hf.2.2.2.2 ?_
            rw [hs.2.2.2.1, hstd]
            exact hq
        · rw [if_neg hcm]
          refine ⟨Or.inr rfl, ?_, ?_, ?_⟩
          · show st1.deepest ≤ _
            rw [hs.2.2.2.2.2.2, hstd]; exact stD_deep_le st.deepest curr maxDims
          · intro hq
            show st1.promoCount = st.promoCount
            rw [hs.2.2.2.2.2.1, hstd]
          · intro hq
            show st1.flags.promotionFailed = true
            rw [hs.2.2.2.1, hstd]
            exact hq
  | PyObj.pyBytes cs, curr, maxDims, fixed, req, st => by
    rw [PyArray_DiscoverDTypeAndShape_Recursive]
    set std : DiscState := {st with deepest := Nat.max st.deepest curr} with hstd
    have hdeep : std.deepest = Nat.max st.deepest curr := rfl
    by_cases hforce : std.flags.discoverStringsAsSequences = true ∧ lengthL cs ≠ 1
    · rw [if_pos hforce]
      have hsp := seqProlog_spec (PyObj.pyBytes cs) cs curr maxDims std
      cases hP : seqProlog (PyObj.pyBytes cs) cs curr maxDims std with
      | inl res =>
        cases res with
        | mk ret st1 =>
          try dsimp only
          have h1 := hsp.1 ret st1 hP
          refine ⟨h1.1, ?_, ?_, ?_⟩
          · rw [h1.2.1, hdeep]; exact stD_deep_le st.deepest curr maxDims
          · intro hq; rw [h1.2.2.1]
          · intro hq; exact h1.2.2.2 hq
      | inr res =>
        cases res with
        | mk m1 st2 =>
          try dsimp only
          have h2 := hsp.2 m1 st2 hP
          have hit := discoverItems_master cs (curr + 1) m1 fixed req st2
          refine ⟨?_, ?_, ?_, ?_⟩
          · rcases hit.1 with h | h
            · left; omega
            · right; exact h
          · refine deep_chain_seq _ st.deepest curr m1 maxDims ?_ h2.1 h2.2.1
            have := hit.2.1
            rw [h2.2.2.1, hdeep] at this
            exact this
          · intro hq
            rw [hit.2.2.1 hq, h2.2.2.2.1, hstd]
          · intro hq
            refine hit.2.2.2 ?_
            rw [h2.2.2.2.2]
            exact hq
    · rw [if_neg hforce]
      cases hss : scalarStep (PyObj.pyBytes cs) curr maxDims fixed req std with
      | inl res =>
        cases res with
        | mk ret st1 =>
          try dsimp only
          have hs := scalarStep_inl_spec (PyObj.pyBytes cs) curr maxDims fixed req std ret st1 hss
          refine ⟨hs.1, ?_, ?_, ?_⟩
          · rw [hs.2.2.1, hstd]; exact stD_deep_le st.deepest curr maxDims
          · exact hs.2.2.2.1
          · exact hs.2.2.2.2
      | inr st1 =>
        try dsimp only
        have hs := scalarStep_inr_spec (PyObj.pyBytes cs) curr maxDims fixed req std st1 hss
        by_cases hcm : (curr : Int) = maxDims
        · rw [if_pos hcm]
          have hf := scalarFallback_spec (PyObj.pyBytes cs) curr maxDims fixed req true st1
          refine ⟨hf.1, ?_, ?_, ?_⟩
          · rw [hf.2.2.1, hs.2.2.2.2.2.2, hstd]; exact stD_deep_le st.deepest curr maxDims
          · intro hq; rw [hf.2.2.2.1 hq, hs.2.2.2.2.2.1, hstd]
          · intro hq
            refine hf.2.2.2.2 ?_
            rw [hs.2.2.2.1, hstd]
            exact hq
        · rw [if_neg hcm]
          refine ⟨Or.inr rfl, ?_, ?_, ?_⟩
          · show st1.deepest ≤ _
            rw [hs.2.2.2.2.2.2, hstd]; exact stD_deep_le st.deepest curr maxDims
          · intro hq
            show st1.promoCount = st.promoCount
            rw [hs.2.2.2.2.2.1, hstd]
          · intro hq
            show st1.flags.promotionFailed = true
            rw [hs.2.2.2.1, hstd]
            exact hq
  | PyObj.pyList xs, curr, maxDims, fixed, req, st => by
    rw [PyArray_DiscoverDTypeAndShape_Recursive]
    set std : DiscState := {st with deepest := Nat.max st.deepest curr} with hstd
    cases hss : scalarStep (PyObj.pyList xs) curr maxDims fixed req std with
    | inl res =>
      cases res with
      | mk ret st1 =>
        try dsimp only
        have hs := scalarStep_inl_spec (PyObj.pyList xs) curr maxDims fixed req std ret st1 hss
        refine ⟨hs.1, ?_, ?_, ?_⟩
        · rw [hs.2.2.1, hstd]; exact stD_deep_le st.deepest curr maxDims
        · exact hs.2.2.2.1
        · exact hs.2.2.2.2
    | inr st1 =>
      try dsimp only
      have hs := scalarStep_inr_spec (PyObj.pyList xs) curr maxDims fixed req std st1 hss
      have hdeep1 : st1.deepest = Nat.max st.deepest curr := by rw [hs.2.2.2.2.2.2, hstd]
      by_cases hcm : (curr : Int) = maxDims
      · rw [if_pos hcm]
        have hf := scalarFallback_spec (PyObj.pyList xs) curr maxDims fixed req true st1
        refine ⟨hf.1, ?_, ?_, ?_⟩
        · rw [hf.2.2.1, hdeep1]; exact stD_deep_le st.deepest curr maxDims
        · intro hq; rw [hf.2.2.2.1 hq, hs.2.2.2.2.2.1, hstd]
        · intro hq
          refine hf.2.2.2.2 ?_
          rw [hs.2.2.2.1, hstd]
          exact hq
      · rw [if_neg hcm]
        have hsp := seqProlog_spec (PyObj.pyList xs) xs curr maxDims st1
        cases hP : seqProlog (PyObj.pyList xs) xs curr maxDims st1 with
        | inl res =>
          cases res with
          | mk ret st2 =>
            try dsimp only
            have h1 := hsp.1 ret st2 hP
            refine ⟨h1.1, ?_, ?_, ?_⟩
            · rw [h1.2.1, hdeep1]; exact stD_deep_le st.deepest curr maxDims
            · intro hq; rw [h1.2.2.1, hs.2.2.2.2.2.1, hstd]
            · intro hq
              refine h1.2.2.2 ?_
              rw [hs.2.2.2.1, hstd]
              exact hq
        | inr res =>
          cases res with
          | mk m1 st2 =>
            try dsimp only
            have h2 := hsp.2 m1 st2 hP
            have hit := discoverItems_master xs (curr + 1) m1 fixed req st2
            refine ⟨?_, ?_, ?_, ?_⟩
            · rcases hit.1 with h | h
              · left; omega
              · right; exact h
            · refine deep_chain_seq _ st.deepest curr m1 maxDims ?_ h2.1 h2.2.1
              have := hit.2.1
              rw [h2.2.2.1, hdeep1] at this
              exact this
            · intro hq
              rw [hit.2.2.1 hq, h2.2.2.2.1, hs.2.2.2.2.2.1, hstd]
            · intro hq
              refine hit.2.2.2 ?_
              rw [h2.2.2.2.2, hs.2.2.2.1, hstd]
              exact hq
  | PyObj.pyTuple xs, curr, maxDims, fixed, req, st => by
    rw [PyArray_DiscoverDTypeAndShape_Recursive]
    set std : DiscState := {st with deepest := Nat.max st.deepest curr} with hstd
    cases hss : scalarStep (PyObj.pyTuple xs) curr maxDims fixed req std with
    | inl res =>
      cases res with
      | mk ret st1 =>
        try dsimp only
        have hs := scalarStep_inl_spec (PyObj.pyTuple xs) curr maxDims fixed req std ret st1 hss
        refine ⟨hs.1, ?_, ?_, ?_⟩
        · rw [hs.2.2.1, hstd]; exact stD_deep_le st.deepest curr maxDims
        · exact hs.2.2.2.1
        · exact hs.2.2.2.2
    | inr st1 =>
      try dsimp only
      have hs := scalarStep_inr_spec (PyObj.pyTuple xs) curr maxDims fixed req std st1 hss
      have hdeep1 : st1.deepest = Nat.max st.deepest curr := by rw [hs.2.2.2.2.2.2, hstd]
      by_cases htup : st1.flags.discoverTuplesAsElements = true
      · rw [if_pos htup]
        have hf := scalarFallback_spec (PyObj.pyTuple xs) curr maxDims fixed req false st1
        refine ⟨hf.1, ?_, ?_, ?_⟩
        · rw [hf.2.2.1, hdeep1]; exact stD_deep_le st.deepest curr maxDims
        · intro hq; rw [hf.2.2.2.1 hq, hs.2.2.2.2.2.1, hstd]
        · intro hq
          refine hf.2.2.2.2 ?_
          rw [hs.2.2.2.1, hstd]
          exact hq
      · rw [if_neg htup]
        by_cases hcm : (curr : Int) = maxDims
        · rw [if_pos hcm]
          have hf := scalarFallback_spec (PyObj.pyTuple xs) curr maxDims fixed req true st1
          refine ⟨hf.1, ?_, ?_, ?_⟩
          · rw [hf.2.2.1, hdeep1]; exact stD_deep_le st.deepest curr maxDims
          · intro hq; rw [hf.2.2.2.1 hq, hs.2.2.2.2.2.1, hstd]
          · intro hq
            refine hf.2.2.2.2 ?_
            rw [hs.2.2.2.1, hstd]
            exact hq
        · rw [if_neg hcm]
          have hsp := seqProlog_spec (PyObj.pyTuple xs) xs curr maxDims st1
          cases hP : seqProlog (PyObj.pyTuple xs) xs curr maxDims st1 with
          | inl res =>
            cases res with
            | mk ret st2 =>
              try dsimp only
              have h1 := hsp.1 ret st2 hP
              refine ⟨h1.1, ?_, ?_, ?_⟩
              · rw [h1.2.1, hdeep1]; exact stD_deep_le st.deepest curr maxDims
              · intro hq; rw [h1.2.2.1, hs.2.2.2.2.2.1, hstd]
              · intro hq
                refine h1.2.2.2 ?_
                rw [hs.2.2.2.1, hstd]
                exact hq
          | inr res =>
            cases res with
            | mk m1 st2 =>
              try dsimp only
              have h2 := hsp.2 m1 st2 hP
              have hit := discoverItems_master xs (curr + 1) m1 fixed req st2
              refine ⟨?_, ?_, ?_, ?_⟩
              · rcases hit.1 with h | h
                · left; omega
                · right; exact h
              · refine deep_chain_seq _ st.deepest curr m1 maxDims ?_ h2.1 h2.2.1
                have := hit.2.1
                rw [h2.2.2.1, hdeep1] at this
                exact this
              · intro hq
                rw [hit.2.2.1 hq, h2.2.2.2.1, hs.2.2.2.2.2.1, hstd]
              · intro hq
                refine hit.2.2.2 ?_
                rw [h2.2.2.2.2, hs.2.2.2.1, hstd]
                exact hq

/-- Master invariant of the per-item loop (same four properties). -/
theorem discoverItems_master :
    ∀ (xs : PyObjList) (curr : Nat) (maxDims : Int) (fixed : Option DTypeMeta)
      (req : Option Descr) (st : DiscState),
    ((discoverItems xs curr maxDims fixed req st).1 ≤ maxDims ∨
      (discoverItems xs curr maxDims fixed req st).1 = -1) ∧
    (discoverItems xs curr maxDims fixed req st).2.deepest ≤
      Nat.max st.deepest (Nat.max curr maxDims.toNat) ∧
    (req.isSome = true →
      (discoverItems xs curr maxDims fixed req st).2.promoCount = st.promoCount) ∧
    (st.flags.promotionFailed = true →
      (discoverItems xs curr maxDims fixed req st).2.flags.promotionFailed = true)
  | PyObjList.nil, curr, maxDims, fixed, req, st => by
    rw [discoverItems]
    exact ⟨Or.inl (le_refl maxDims), le_max_left _ _, fun _ => rfl, fun h => h⟩
  | PyObjList.cons x rest, curr, maxDims, fixed, req, st => by
    rw [discoverItems]
    have hrec := PyArray_DiscoverDTypeAndShape_Recursive_master x curr maxDims fixed req st
    cases hR : PyArray_DiscoverDTypeAndShape_Recursive x curr maxDims fixed req st with
    | mk m st1 =>
      try dsimp only
      rw [hR] at hrec
      dsimp only at hrec ⊢
      by_cases hm : m < 0
      · rw [if_pos hm]
        exact ⟨Or.inr rfl, hrec.2.1, hrec.2.2.1, hrec.2.2.2⟩
      · rw [if_neg hm]
        have hmle : m ≤ maxDims := by
          rcases hrec.1 with h | h
          · exact h
          · omega
        have hd0 : 0 ≤ maxDims := by omega
        have hit := discoverItems_master rest curr m fixed req st1
        refine ⟨?_, ?_, ?_, ?_⟩
        · rcases hit.1 with h | h
          · left; omega
          · right; exact h
        · exact deep_chain_items _ st1.deepest st.deepest curr m maxDims hit.2.1 hrec.2.1 hmle hd0
        · intro hq
          rw [hit.2.2.1 hq, hrec.2.2.1 hq]
        · intro hq
          exact hit.2.2.2 (hrec.2.2.2 hq)
end

/-! Helper facts for the registry claims. -/

/-- Deleting a key removes it from the dictionary. -/
theorem regGet_regDel (reg : Registry) (k : PyKey) :
    regGet (regDel reg k) k = none := by
  induction reg with
  | nil => rfl
  | cons p rest ih =>
    cases p with
    | mk k' v' =>
      rw [regDel]
      by_cases h : k' = k
      · rw [if_pos h]; exact ih
      · rw [if_neg h]; rw [regGet, if_neg h]; exact ih

/-- Concrete registries for the registration scenario. -/
def userDTypeA : DTypeMeta := DTypeOfNum (TypeNum.tUser 1)

/-- Second user dtype class, distinct from the first. -/
def userDTypeB : DTypeMeta := DTypeOfNum (TypeNum.tUser 2)

/-- The user scalar type used in the registration scenario. -/
def userScalarType : PyTypeTag := PyTypeTag.userT 5 true

/-- Registry after the first registration. -/
def regAfterFirst : Registry :=
  regSet primedTypeDict (PyKey.typeKey userScalarType) (RegEntry.weak (some userDTypeA))

/-- Registry after the second registration of the same scalar type. -/
def regAfterSecond : Registry :=
  regSet regAfterFirst (PyKey.typeKey userScalarType) (RegEntry.weak (some userDTypeB))

/-- C4: the registration function as implemented does not fail when the
scalar type is already mapped to a different class: its duplicate check
passes the DType object itself (not the python type) to PyDict_Contains,
which never matches a key of the dictionary, so a second registration of
the same scalar type silently succeeds and overwrites the first mapping.
The invalid-registration half of the contract is implemented: a
user-defined registration for a type that is not a generic-scalar subclass
fails.  This contradicts the claimed DuplicateScalarMapping error and the
function's own error message, so the claim identifies a code bug. -/
theorem C4_duplicate_mapping_overwritten :
    _PyArray_MapPyTypeToDType primedTypeDict userDTypeA userScalarType false =
      Except.ok regAfterFirst ∧
    _PyArray_MapPyTypeToDType regAfterFirst userDTypeB userScalarType false =
      Except.ok regAfterSecond ∧
    regGet regAfterSecond (PyKey.typeKey userScalarType) =
      some (RegEntry.weak (some userDTypeB)) ∧
    userDTypeB ≠ userDTypeA ∧
    _PyArray_MapPyTypeToDType primedTypeDict userDTypeA PyTypeTag.listT true =
      Except.error PyExc.runtimeErrorRegisterGeneric := by
  exact ⟨rfl, rfl, by decide, by decide, rfl⟩

/-- C5: a lookup hitting a dead weak reference removes the stale entry
from the dictionary and does not return the dangling class (it returns the
known non-scalar marker), and a scalar type that is not in the dictionary
falls through to the legacy discovery. -/
theorem C5_stale_entry_pruned_and_unknown_falls_through :
    (∀ (reg : Registry) (t : PyTypeTag),
      regGet reg (PyKey.typeKey t) = some (RegEntry.weak none) →
      (discover_dtype_from_pytype reg t).1 = PyTypeLookup.nonScalar ∧
      (∀ D : DTypeMeta, (discover_dtype_from_pytype reg t).1 ≠ PyTypeLookup.dtype D) ∧
      regGet (discover_dtype_from_pytype reg t).2 (PyKey.typeKey t) = none) ∧
    (∀ (reg : Registry) (obj : PyObj),
      regGet reg (PyKey.typeKey (typeOf obj)) = none →
      discover_dtype_from_pyobject reg obj none = (legacyDTypeLookup obj, reg)) := by
  constructor
  · intro reg t hdead
    rw [discover_dtype_from_pytype, hdead]
    exact ⟨rfl, fun D h => by exact absurd h (by simp), regGet_regDel reg (PyKey.typeKey t)⟩
  · intro reg obj hunk
    rw [discover_dtype_from_pyobject, discoverDTypeViaRegistry,
      discover_dtype_from_pytype, hunk]

/-- Dead-weak-reference registry used in the C5 witness. -/
def deadEntryRegistry : Registry :=
  (PyKey.typeKey userScalarType, RegEntry.weak none) :: primedTypeDict

/-- Witness for C5 at a concrete registry holding a dead weak reference,
and a concrete unknown scalar type (python int under the primed
dictionary). -/
theorem C5_witness :
    ((discover_dtype_from_pytype deadEntryRegistry userScalarType).1 =
        PyTypeLookup.nonScalar ∧
      regGet (discover_dtype_from_pytype deadEntryRegistry userScalarType).2
        (PyKey.typeKey userScalarType) = none) ∧
    discover_dtype_from_pyobject primedTypeDict PyObj.pyInt none =
      (legacyDTypeLookup PyObj.pyInt, primedTypeDict) := by
  have h1 := C5_stale_entry_pruned_and_unknown_falls_through.1 deadEntryRegistry
    userScalarType (by decide)
  have h2 := C5_stale_entry_pruned_and_unknown_falls_through.2 primedTypeDict
    PyObj.pyInt (by decide)
  exact ⟨⟨h1.1, h1.2.2⟩, h2⟩

/-- C9: the output shape of a discovery call starts fully unset; a slot
holding a concrete size is never overwritten with a different value by
update_shape; a conflicting size at most shrinks the usable dimension
count (maxNdim never grows) and surfaces as the negative success value
(the only two outcomes), while on the zero outcome every examined slot
agrees with the incoming dimensions.  The in-range hypothesis holds at
every call site (the top level allocates maxDims slots). -/
theorem C9_shape_slots_write_once (curr : Nat) (maxN : Int) (sh : List Int)
    (nd : Int) (ns : List Int) (seq : Bool)
    (hlen : curr + nd.toNat ≤ sh.length) :
    (∀ m i : Nat, i < m → (initDiscoveryShape m).getD i (-1) = -1) ∧
    (∀ j : Nat, sh.getD j (-1) ≠ -1 →
      ((update_shape curr maxN sh nd ns seq).2.2).getD j (-1) = sh.getD j (-1)) ∧
    (update_shape curr maxN sh nd ns seq).2.1 ≤ maxN ∧
    ((update_shape curr maxN sh nd ns seq).1 = 0 ∨
      (update_shape curr maxN sh nd ns seq).1 = -1) ∧
    ((update_shape curr maxN sh nd ns seq).1 = 0 →
      ∀ i : Nat, (i : Int) < nd →
      ((update_shape curr maxN sh nd ns seq).2.2).getD (curr + i) (-1) =
        ns.getD i 0) := by
  refine ⟨?_, ?_, ?_, ?_, ?_⟩
  · intro m i him
    simp [initDiscoveryShape, List.getD_eq_getElem?_getD, List.getElem?_replicate, him]
  · intro j hj
    exact update_shape_preserve curr maxN sh nd ns seq j hj
  · exact (update_shape_spec curr maxN sh nd ns seq).2.1
  · exact (update_shape_spec curr maxN sh nd ns seq).1
  · intro hz i hi
    exact update_shape_written curr maxN sh nd ns seq hlen hz i hi

/-- Witness for C9 at a concrete conflicting update: a sequence of length
three meets a slot already recording two; the recorded slot is kept, the
call reports failure, and the usable dimensions shrink. -/
theorem C9_witness :
    0 + (1 : Int).toNat ≤ [(2 : Int), -1].length ∧
    ((update_shape 0 4 [(2 : Int), -1] 1 [3] true).2.2).getD 0 (-1) = 2 ∧
    (update_shape 0 4 [(2 : Int), -1] 1 [3] true).2.1 ≤ 4 ∧
    (update_shape 0 4 [(2 : Int), -1] 1 [3] true).1 = -1 := by
  have h := C9_shape_slots_write_once 0 4 [(2 : Int), -1] 1 [3] true (by decide)
  refine ⟨by decide, ?_, h.2.2.1, by decide⟩
  have h2 := h.2.1 0 (by decide)
  rw [h2]
  decide

/-- C6: a failed promotion during discovery does not abort.
handle_promotion returns success while downgrading the running descriptor
to the object descriptor and setting the sticky promotion-failed flag (and
it performs one more promotion attempt, witnessed by the ghost counter);
and the flag is sticky across the whole recursive discovery: once set it
is still set when any discovery step returns, so dimensionality discovery
continues to completion with the flag intact. -/
theorem C6_promotion_failure_recovers :
    (∀ (cur d : Descr) (fl : Flags) (pc : Nat),
      PyArray_PromoteTypes cur d = none →
      handle_promotion (some cur) d none fl pc =
        (0, some objectDescr, {fl with promotionFailed := true}, pc + 1)) ∧
    (∀ (obj : PyObj) (curr : Nat) (maxDims : Int) (fixed : Option DTypeMeta)
      (req : Option Descr) (st : DiscState),
      st.flags.promotionFailed = true →
      (PyArray_DiscoverDTypeAndShape_Recursive obj curr maxDims fixed req st).2.flags.promotionFailed = true) := by
  constructor
  · intro cur d fl pc hfail
    rw [handle_promotion]
    simp [hfail]
  · intro obj curr maxDims fixed req st hflag
    exact (PyArray_DiscoverDTypeAndShape_Recursive_master obj curr maxDims fixed req st).2.2.2 hflag

/-- The datetime descriptor used in concrete promotion-failure inputs. -/
def datetimeDescr : Descr := ⟨TypeNum.tDatetime, 3, false, false⟩

/-- Base discovery state over the primed registry with a four-slot shape,
used by concrete witnesses. -/
def baseState : DiscState :=
  { outDescr := none, outShape := [-1, -1, -1, -1], cache := [], flags := {},
    reg := primedTypeDict, exc := none, promoCount := 0, deepest := 0 }

/-- Witness for C6: promoting the datetime descriptor with the long
descriptor fails, and handle_promotion recovers exactly as stated;
the sticky flag survives a concrete discovery step. -/
theorem C6_witness :
    handle_promotion (some datetimeDescr) ⟨TypeNum.tLong, 0, false, false⟩ none {} 0 =
      (0, some objectDescr, {promotionFailed := true}, 1) ∧
    (PyArray_DiscoverDTypeAndShape_Recursive PyObj.pyInt 0 4 none none
      {baseState with flags := {promotionFailed := true}}).2.flags.promotionFailed = true := by
  constructor
  · exact C6_promotion_failure_recovers.1 datetimeDescr ⟨TypeNum.tLong, 0, false, false⟩ {} 0 (by decide)
  · exact C6_promotion_failure_recovers.2 PyObj.pyInt 0 4 none none
      {baseState with flags := {promotionFailed := true}} rfl

/-- C8: whenever the top-level discovery returns with an error, the whole
coercion cache has been released (the caller-visible cache is empty) and
the output descriptor is cleared. -/
theorem C8_failure_releases_cache (reg : Registry) (obj : PyObj)
    (maxDims : Nat) (fixed : Option DTypeMeta) (req : Option Descr)
    (hfail : (PyArray_DiscoverDTypeAndShape reg obj maxDims fixed req).ndim < 0) :
    (PyArray_DiscoverDTypeAndShape reg obj maxDims fixed req).coercionCache = [] ∧
    (PyArray_DiscoverDTypeAndShape reg obj maxDims fixed req).outDescr = none := by
  rw [PyArray_DiscoverDTypeAndShape] at hfail ⊢
  cases hR : PyArray_DiscoverDTypeAndShape_Recursive obj 0 (maxDims : Int) fixed req
      { outDescr := none, outShape := initDiscoveryShape maxDims, cache := [],
        flags := requestFlags req, reg := reg, exc := none, promoCount := 0,
        deepest := 0 } with
  | mk ndim st =>
    rw [hR] at hfail
    dsimp only at hfail ⊢
    by_cases h1 : ndim < 0
    · rw [if_pos h1] at hfail ⊢
      exact ⟨rfl, rfl⟩
    · rw [if_neg h1] at hfail ⊢
      by_cases h2 : st.flags.isRagged = true ∨
          (st.flags.reachedMaxdims = true ∧ ndim < (maxDims : Int))
      · rw [if_pos h2] at hfail ⊢
        cases fixed with
        | none =>
          rw [discoveryFinish.eq_def] at hfail
          dsimp only at hfail
          omega
        | some f =>
          dsimp only at hfail ⊢
          by_cases h3 : f.typeNum ≠ TypeNum.tObject
          · rw [if_pos h3] at hfail ⊢
            exact ⟨rfl, rfl⟩
          · rw [if_neg h3] at hfail ⊢
            rw [discoveryFinish.eq_def] at hfail
            dsimp only at hfail
            omega
      · rw [if_neg h2] at hfail ⊢
        rw [discoveryFinish.eq_def] at hfail
        dsimp only at hfail
        omega

/-! Concrete inputs for the remaining claims. -/

/-- The long (default integer) descriptor. -/
def longDescr : Descr := ⟨TypeNum.tLong, 0, false, false⟩

/-- A character-variant string descriptor (NPY_STRING with type 'c'). -/
def charStringDescr : Descr := ⟨TypeNum.tString, 1, true, false⟩

/-- The nested input with sub-branches of different lengths:
a list holding the lists [1, 2] and [3]. -/
def raggedListInput : PyObj :=
  PyObj.pyList (ofL [PyObj.pyList (ofL [PyObj.pyInt, PyObj.pyInt]),
    PyObj.pyList (ofL [PyObj.pyInt])])

/-- The nested input whose sub-branches disagree in a trailing array
dimension: a list holding two three-dimensional arrays of shapes (1,1,1)
and (1,1,2). -/
def mismatchedArraysInput : PyObj :=
  PyObj.pyList (ofL [PyObj.npArray [1, 1, 1] longDescr PyObjList.nil,
    PyObj.npArray [1, 1, 2] longDescr PyObjList.nil])

/-- The two-character string input. -/
def abString : PyObj := PyObj.pyStr (ofL [PyObj.pyChar, PyObj.pyChar])

attribute [simp] PyArray_DiscoverDTypeAndShape discoveryFail discoveryFinish
  npy_free_coercion_cache initDiscoveryShape requestFlags
  PyArray_DiscoverDTypeAndShape_Recursive discoverItems scalarStep
  applyHandleScalar scalarFallback seqProlog arrayBranch arrayCastPromote
  objectElemsLoop handle_scalar handle_promotion find_scalar_descriptor
  findScalarDescrTail cast_descriptor_to_fixed_dtype
  discover_descr_from_pyobject discover_dtype_from_pyobject
  discoverDTypeViaRegistry discover_dtype_from_pytype legacyDTypeLookup
  typeOf regGet regSet regDel primedTypeDict DTypeOfNum dtypeIsKnownScalar
  update_shape updShapeLoop npy_new_coercion_cache lengthL ofL
  PyArray_PromoteTypes numericRank objectDescr npyDefaultTypeDescr
  descrInstanceOfClass PyArray_AdaptFlexibleDType flexLenOf baseState
  longDescr charStringDescr raggedListInput mismatchedArraysInput abString
  userDTypeA userDTypeB userScalarType deadEntryRegistry datetimeDescr
  isSubclassOfGenericScalar


/-- C1: evaluation of the discovery at the failing input.  The two
three-dimensional arrays disagree in their last dimension, a ragged input.
The claim (following the specification) promises that with no fixed class
the call succeeds with the object descriptor and exactly one
deprecation-class diagnostic, and that with a fixed non-object class it
raises the ragged-input ValueError.  The code instead returns the error
value with no exception set, no diagnostic and no descriptor in both
cases: update_shape at line 477 subtracts new_ndim plus i (instead of the
unusable trailing dimensions new_ndim minus i) from the running maxNdim,
driving it negative; the per-item loop at line 819 then treats the
negative value as an error return. -/
theorem C1_ragged_input_error_lost :
    PyArray_DiscoverDTypeAndShape primedTypeDict mismatchedArraysInput 4 none none =
      ⟨-1, [2, 1, 1, 1], none, [], none, 0,
        ⟨true, false, false, false, false, false⟩, 0, 1, primedTypeDict⟩ ∧
    PyArray_DiscoverDTypeAndShape primedTypeDict mismatchedArraysInput 4
        (some (DTypeOfNum TypeNum.tLong)) none =
      ⟨-1, [2, 1, 1, 1], none, [], none, 0,
        ⟨true, false, false, false, false, false⟩, 0, 1, primedTypeDict⟩ := by
  constructor
  · simp
  · simp

/-- Witness for C8 at a concrete failing call: an array-like whose
conversion raises makes the discovery fail, and the cache and descriptor
outputs are cleared. -/
theorem C8_witness :
    (PyArray_DiscoverDTypeAndShape primedTypeDict PyObj.badArrayLike 2
      none none).coercionCache = [] ∧
    (PyArray_DiscoverDTypeAndShape primedTypeDict PyObj.badArrayLike 2
      none none).outDescr = none :=
  C8_failure_releases_cache primedTypeDict PyObj.badArrayLike 2 none none (by
    have h : (PyArray_DiscoverDTypeAndShape primedTypeDict PyObj.badArrayLike 2
        none none).ndim = -1 := by simp
    rw [h]
    norm_num)

/-! Helper lemmas for the symbolic claims below. -/

/-- A node whose type the registry and the legacy discovery both fail to
recognize, and which is not claimed by the fixed class, continues past the
scalar step with the state unchanged. -/
theorem scalarStep_nonscalar_inr (obj : PyObj) (curr : Nat) (maxDims : Int)
    (fixed : Option DTypeMeta) (req : Option Descr) (st : DiscState)
    (hvia : discoverDTypeViaRegistry st.reg obj = (none, st.reg))
    (h2 : ∀ f, fixed = some f → ¬ typeOf obj = f.scalarType) :
    scalarStep obj curr maxDims fixed req st = Sum.inr st := by
  rw [scalarStep]
  have hd : discover_dtype_from_pyobject st.reg obj fixed = (none, st.reg) := by
    rw [discover_dtype_from_pyobject.eq_def]
    cases fixed with
    | none => exact hvia
    | some f =>
      have hcond : ¬ (typeOf obj = f.scalarType ∨ dtypeIsKnownScalar f obj = true) := by
        intro hc
        rcases hc with hc | hc
        · exact h2 f rfl hc
        · rw [dtypeIsKnownScalar] at hc
          exact Bool.noConfusion hc
      dsimp only
      rw [if_neg hcond]
      exact hvia
  rw [hd]

/-- The flags derived from a requested descriptor never include the ragged
or the reached-max-dims flag. -/
theorem requestFlags_quiet (req : Option Descr) :
    (requestFlags req).isRagged = false ∧ (requestFlags req).reachedMaxdims = false := by
  cases req with
  | none => exact ⟨rfl, rfl⟩
  | some r =>
    rw [requestFlags]
    split
    · exact ⟨rfl, rfl⟩
    · split
      · exact ⟨rfl, rfl⟩
      · exact ⟨rfl, rfl⟩

/-- Under the primed dictionary, every list object is answered as a known
non-scalar with the dictionary unchanged. -/
theorem primed_list_nonscalar (xs : PyObjList) :
    discoverDTypeViaRegistry primedTypeDict (PyObj.pyList xs) =
      (none, primedTypeDict) := rfl

/-- update_shape for a fitting one-dimensional sequence step writes the
sequence length into the first unset slot and succeeds. -/
theorem update_shape_seq_one (curr : Nat) (maxN : Int) (sh : List Int) (v : Int)
    (hfit : (curr : Int) + 1 ≤ maxN)
    (hslot : sh.getD curr (-1) = -1) :
    update_shape curr maxN sh 1 [v] true = (0, maxN, sh.set curr v) := by
  rw [update_shape]
  rw [if_neg (show ¬ (curr : Int) + 1 > maxN by omega)]
  rw [if_neg (show ¬ (¬ (true : Bool) = true ∧ maxN ≠ (curr : Int) + 1) by simp)]
  show updShapeLoop (0 + 1) 0 1 curr maxN sh [v] true 0 = (0, maxN, sh.set curr v)
  rw [updShapeLoop]
  have h0 : sh.getD (curr + 0) (-1) = -1 := by simpa using hslot
  rw [if_pos h0]
  rw [updShapeLoop]
  rfl

/-- seqProlog on an empty sequence that fits below the bound records the
cache entry, writes extent zero, and stops at the current depth plus
one. -/
theorem seqProlog_empty (obj : PyObj) (curr : Nat) (maxDims : Int)
    (st : DiscState)
    (hfit : (curr : Int) + 1 ≤ maxDims)
    (hslot : st.outShape.getD curr (-1) = -1) :
    seqProlog obj PyObjList.nil curr maxDims st =
      Sum.inl ((curr : Int) + 1,
        { st with cache := st.cache ++ [⟨obj, PyObj.pyList PyObjList.nil, true⟩],
                  outShape := st.outShape.set curr 0 }) := by
  rw [seqProlog]
  dsimp only
  rw [show ((lengthL PyObjList.nil : Nat) : Int) = 0 from rfl]
  rw [update_shape_seq_one curr maxDims st.outShape 0 hfit hslot]
  dsimp only
  rw [if_neg (show ¬ (0 : Int) < 0 by norm_num)]
  rw [if_pos (show lengthL PyObjList.nil = 0 from rfl)]
  rfl

/-- A list node that the scalar step lets through and that sits strictly
below the depth limit proceeds to the sequence prolog and the per-item
recursion. -/
theorem rec_list_nonscalar_seq (xs : PyObjList) (curr : Nat) (maxDims : Int)
    (fixed : Option DTypeMeta) (req : Option Descr) (st : DiscState)
    (hvia : discoverDTypeViaRegistry st.reg (PyObj.pyList xs) = (none, st.reg))
    (hfix : ∀ f, fixed = some f → ¬ f.scalarType = PyTypeTag.listT)
    (hne : ¬ (curr : Int) = maxDims) :
    PyArray_DiscoverDTypeAndShape_Recursive (PyObj.pyList xs) curr maxDims fixed req st =
      (match seqProlog (PyObj.pyList xs) xs curr maxDims
          { st with deepest := Nat.max st.deepest curr } with
       | Sum.inl res => res
       | Sum.inr (m1, st2) => discoverItems xs (curr + 1) m1 fixed req st2) := by
  rw [PyArray_DiscoverDTypeAndShape_Recursive]
  have hs := scalarStep_nonscalar_inr (PyObj.pyList xs) curr maxDims fixed req
    { st with deepest := Nat.max st.deepest curr } hvia
    (fun f hf hc => hfix f hf hc.symm)
  rw [hs]
  dsimp only
  rw [if_neg hne]

/-- C2 counterexample: shape discovery does not run identically with and
without a caller-provided descriptor instance.  Under the fixed string
class, the two-character string discovers one dimension when the
character-variant string instance is requested (the instance turns on
string-as-sequence discovery) and zero dimensions when no instance is
requested. -/
theorem C2_counterexample_shape_discovery_differs :
    (PyArray_DiscoverDTypeAndShape primedTypeDict abString 2
      (some (DTypeOfNum TypeNum.tString)) (some charStringDescr)).ndim = 1 ∧
    (PyArray_DiscoverDTypeAndShape primedTypeDict abString 2
      (some (DTypeOfNum TypeNum.tString)) none).ndim = 0 := by
  constructor
  · simp
  · simp

/-- C2 (amended): when the caller supplies a requested descriptor
instance, the promotion machinery is never invoked anywhere in the
discovery call, and whenever the call does not fail the returned
descriptor is exactly the caller-provided instance.  (Shape discovery is
not in general identical with and without the instance: a
character-variant string instance makes strings discoverable as
sequences; see the counterexample.) -/
theorem C2_requested_descr_suppresses_promotion (reg : Registry) (obj : PyObj)
    (maxDims : Nat) (fixed : Option DTypeMeta) (r : Descr) :
    (PyArray_DiscoverDTypeAndShape reg obj maxDims fixed (some r)).promoCount = 0 ∧
    (0 ≤ (PyArray_DiscoverDTypeAndShape reg obj maxDims fixed (some r)).ndim →
      (PyArray_DiscoverDTypeAndShape reg obj maxDims fixed (some r)).outDescr = some r) := by
  rw [PyArray_DiscoverDTypeAndShape]
  have hM := (PyArray_DiscoverDTypeAndShape_Recursive_master obj 0 (maxDims : Int)
    fixed (some r)
    { outDescr := none, outShape := initDiscoveryShape maxDims, cache := [],
      flags := requestFlags (some r), reg := reg, exc := none, promoCount := 0,
      deepest := 0 }).2.2.1 rfl
  cases hR : PyArray_DiscoverDTypeAndShape_Recursive obj 0 (maxDims : Int) fixed (some r)
      { outDescr := none, outShape := initDiscoveryShape maxDims, cache := [],
        flags := requestFlags (some r), reg := reg, exc := none, promoCount := 0,
        deepest := 0 } with
  | mk ndim st =>
    rw [hR] at hM
    dsimp only at hM ⊢
    by_cases h1 : ndim < 0
    · rw [if_pos h1]
      refine ⟨hM, fun h => absurd h ?_⟩
      dsimp only [discoveryFail]
      norm_num
    · rw [if_neg h1]
      by_cases h2 : st.flags.isRagged = true ∨
          (st.flags.reachedMaxdims = true ∧ ndim < (maxDims : Int))
      · rw [if_pos h2]
        cases fixed with
        | none => exact ⟨hM, fun _ => rfl⟩
        | some f =>
          dsimp only
          by_cases h3 : f.typeNum ≠ TypeNum.tObject
          · rw [if_pos h3]
            refine ⟨hM, fun h => absurd h ?_⟩
            dsimp only [discoveryFail]
            norm_num
          · rw [if_neg h3]
            exact ⟨hM, fun _ => rfl⟩
      · rw [if_neg h2]
        exact ⟨hM, fun _ => rfl⟩

/-- Witness for C2 at a concrete call: with the character-variant string
instance requested, the discovery of the two-character string performs no
promotion and returns exactly the requested instance. -/
theorem C2_witness :
    (PyArray_DiscoverDTypeAndShape primedTypeDict abString 2
      (some (DTypeOfNum TypeNum.tString)) (some charStringDescr)).promoCount = 0 ∧
    (PyArray_DiscoverDTypeAndShape primedTypeDict abString 2
      (some (DTypeOfNum TypeNum.tString)) (some charStringDescr)).outDescr =
      some charStringDescr := by
  have h := C2_requested_descr_suppresses_promotion primedTypeDict abString 2
    (some (DTypeOfNum TypeNum.tString)) charStringDescr
  refine ⟨h.1, h.2 ?_⟩
  have h1 : (PyArray_DiscoverDTypeAndShape primedTypeDict abString 2
      (some (DTypeOfNum TypeNum.tString)) (some charStringDescr)).ndim = 1 := by simp
  rw [h1]
  norm_num

/-- C3 counterexample: a node at depth equal to max_dims is not always
handled as a scalar leaf.  Under a requested character-variant string
instance, the two-character string sitting at the depth limit is forced
through the sequence path: the discovery becomes ragged and, with the
fixed string class, the whole call fails with the ragged-input ValueError
instead of freezing the string as a scalar. -/
theorem C3_counterexample_string_not_leaf_at_limit :
    PyArray_DiscoverDTypeAndShape primedTypeDict (PyObj.pyList (ofL [abString])) 1
        (some (DTypeOfNum TypeNum.tString)) (some charStringDescr) =
      ⟨-1, [1], none, [], some PyExc.valueErrorRagged, 0,
        ⟨true, false, false, false, true, false⟩, 0, 1, primedTypeDict⟩ := by
  simp

/-- C3 (amended): a list node sitting exactly at the depth limit is frozen
as a scalar leaf: the recursion does not descend into its items (the
coercion cache gains no entry and the recorded visit depth stays at the
node's own depth), and for every top-level call the visited depth never
exceeds the dimension bound.  (A string node under a requested
character-variant string instance escapes the freeze; see the
counterexample.) -/
theorem C3_depth_limit_freezes_sequences (xs : PyObjList) (curr : Nat)
    (maxDims : Int) (fixed : Option DTypeMeta) (req : Option Descr)
    (st : DiscState) (reg : Registry) (obj : PyObj) (topMax : Nat)
    (h : (curr : Int) = maxDims) :
    ((PyArray_DiscoverDTypeAndShape_Recursive (PyObj.pyList xs) curr maxDims
        fixed req st).2.cache = st.cache ∧
     (PyArray_DiscoverDTypeAndShape_Recursive (PyObj.pyList xs) curr maxDims
        fixed req st).2.deepest = Nat.max st.deepest curr) ∧
    (PyArray_DiscoverDTypeAndShape reg obj topMax fixed req).deepest ≤ topMax := by
  constructor
  · rw [PyArray_DiscoverDTypeAndShape_Recursive]
    cases hss : scalarStep (PyObj.pyList xs) curr maxDims fixed req
        { st with deepest := Nat.max st.deepest curr } with
    | inl res =>
      cases res with
      | mk ret st1 =>
        dsimp only
        have hs := scalarStep_inl_spec (PyObj.pyList xs) curr maxDims fixed req
          { st with deepest := Nat.max st.deepest curr } ret st1 hss
        exact ⟨hs.2.1, hs.2.2.1⟩
    | inr st1 =>
      dsimp only
      rw [if_pos h]
      have hs := scalarStep_inr_spec (PyObj.pyList xs) curr maxDims fixed req
        { st with deepest := Nat.max st.deepest curr } st1 hss
      have hf := scalarFallback_spec (PyObj.pyList xs) curr maxDims fixed req true st1
      exact ⟨hf.2.1.trans hs.2.2.1, hf.2.2.1.trans hs.2.2.2.2.2.2⟩
  · rw [PyArray_DiscoverDTypeAndShape]
    have hM := (PyArray_DiscoverDTypeAndShape_Recursive_master obj 0 (topMax : Int)
      fixed req
      { outDescr := none, outShape := initDiscoveryShape topMax, cache := [],
        flags := requestFlags req, reg := reg, exc := none, promoCount := 0,
        deepest := 0 }).2.1
    cases hR : PyArray_DiscoverDTypeAndShape_Recursive obj 0 (topMax : Int) fixed req
        { outDescr := none, outShape := initDiscoveryShape topMax, cache := [],
          flags := requestFlags req, reg := reg, exc := none, promoCount := 0,
          deepest := 0 } with
    | mk ndim stt =>
      rw [hR] at hM
      dsimp only at hM ⊢
      have hM2 : stt.deepest ≤ topMax := by
        have h0 : ((topMax : Nat) : Int).toNat = topMax := by omega
        rw [h0] at hM
        have hb : Nat.max 0 (Nat.max 0 topMax) ≤ topMax :=
          Nat.max_le.mpr ⟨Nat.zero_le _, Nat.max_le.mpr ⟨Nat.zero_le _, Nat.le_refl _⟩⟩
        exact le_trans hM hb
      by_cases h1 : ndim < 0
      · rw [if_pos h1]
        exact hM2
      · rw [if_neg h1]
        by_cases h2 : stt.flags.isRagged = true ∨
            (stt.flags.reachedMaxdims = true ∧ ndim < (topMax : Int))
        · rw [if_pos h2]
          cases fixed with
          | none => exact hM2
          | some f =>
            dsimp only
            by_cases h3 : f.typeNum ≠ TypeNum.tObject
            · rw [if_pos h3]
              exact hM2
            · rw [if_neg h3]
              exact hM2
        · rw [if_neg h2]
          exact hM2

/-- Witness for C3 at concrete inputs: a list at the depth limit adds no
cache entry and records only its own depth; a concrete top-level call
never visits past its bound. -/
theorem C3_witness :
    ((1 : Nat) : Int) = (1 : Int) ∧
    (((PyArray_DiscoverDTypeAndShape_Recursive (PyObj.pyList PyObjList.nil) 1 1
        none none baseState).2.cache = baseState.cache ∧
      (PyArray_DiscoverDTypeAndShape_Recursive (PyObj.pyList PyObjList.nil) 1 1
        none none baseState).2.deepest = Nat.max baseState.deepest 1) ∧
     (PyArray_DiscoverDTypeAndShape primedTypeDict PyObj.pyInt 2 none none).deepest ≤ 2) :=
  ⟨rfl, C3_depth_limit_freezes_sequences PyObjList.nil 1 1 none none baseState
    primedTypeDict PyObj.pyInt 2 rfl⟩

/-- C7: discovery of the empty list at depth zero under the primed
dictionary, for any bound of at least one and any fixed class whose scalar
type is not the list type: one dimension of extent zero, the coercion
cache holds exactly the empty sequence, no error and no warning, and the
returned descriptor is the requested one, else the fixed class's default
instance, else the library default type. -/
theorem C7_empty_sequence_discovery (maxDims : Nat) (fixed : Option DTypeMeta)
    (req : Option Descr) (h1 : 1 ≤ maxDims)
    (h2 : ∀ f, fixed = some f → ¬ f.scalarType = PyTypeTag.listT) :
    (PyArray_DiscoverDTypeAndShape primedTypeDict (PyObj.pyList PyObjList.nil)
        maxDims fixed req).ndim = 1 ∧
    (PyArray_DiscoverDTypeAndShape primedTypeDict (PyObj.pyList PyObjList.nil)
        maxDims fixed req).outShape.getD 0 (-1) = 0 ∧
    (PyArray_DiscoverDTypeAndShape primedTypeDict (PyObj.pyList PyObjList.nil)
        maxDims fixed req).coercionCache =
      [⟨PyObj.pyList PyObjList.nil, PyObj.pyList PyObjList.nil, true⟩] ∧
    (PyArray_DiscoverDTypeAndShape primedTypeDict (PyObj.pyList PyObjList.nil)
        maxDims fixed req).exc = none ∧
    (PyArray_DiscoverDTypeAndShape primedTypeDict (PyObj.pyList PyObjList.nil)
        maxDims fixed req).warnCount = 0 ∧
    (PyArray_DiscoverDTypeAndShape primedTypeDict (PyObj.pyList PyObjList.nil)
        maxDims fixed req).outDescr =
      some (req.getD (match fixed with
        | some f => f.defaultDescr
        | none => npyDefaultTypeDescr)) := by
  have hq := requestFlags_quiet req
  have hrec : PyArray_DiscoverDTypeAndShape_Recursive (PyObj.pyList PyObjList.nil) 0
      ((maxDims : Nat) : Int) fixed req
      { outDescr := none, outShape := initDiscoveryShape maxDims, cache := [],
        flags := requestFlags req, reg := primedTypeDict, exc := none,
        promoCount := 0, deepest := 0 } =
      (1, { outDescr := none, outShape := (initDiscoveryShape maxDims).set 0 0,
            cache := [⟨PyObj.pyList PyObjList.nil, PyObj.pyList PyObjList.nil, true⟩],
            flags := requestFlags req, reg := primedTypeDict, exc := none,
            promoCount := 0, deepest := 0 }) := by
    rw [rec_list_nonscalar_seq PyObjList.nil 0 ((maxDims : Nat) : Int) fixed req _
      (primed_list_nonscalar PyObjList.nil) h2 (by omega)]
    rw [seqProlog_empty (PyObj.pyList PyObjList.nil) 0 ((maxDims : Nat) : Int) _
      (by omega)
      (show (initDiscoveryShape maxDims).getD 0 (-1) = -1 by
        rw [initDiscoveryShape, List.getD_eq_getElem?_getD, List.getElem?_replicate]
        rw [if_pos (show 0 < maxDims by omega)]
        rfl)]
    dsimp only
    rfl
  rw [PyArray_DiscoverDTypeAndShape, hrec]
  dsimp only
  rw [if_neg (show ¬ (1 : Int) < 0 by norm_num)]
  rw [if_neg (show ¬ ((requestFlags req).isRagged = true ∨
      ((requestFlags req).reachedMaxdims = true ∧ (1 : Int) < ((maxDims : Nat) : Int)))
    by rw [hq.1, hq.2]; simp)]
  dsimp only [discoveryFinish]
  refine ⟨rfl, ?_, rfl, rfl, rfl, ?_⟩
  · rw [initDiscoveryShape, List.getD_eq_getElem?_getD, List.getElem?_set_self']
    rw [List.getElem?_replicate]
    rw [if_pos (show 0 < maxDims by omega)]
    rfl
  · cases req with
    | some r => rfl
    | none =>
      cases fixed with
      | some f => rfl
      | none => rfl

/-- Witness for C7 at a concrete call: the empty list at bound two with
nothing fixed and nothing requested gives one dimension of extent zero,
the empty-sequence cache entry and the library default element type. -/
theorem C7_witness :
    1 ≤ 2 ∧
    ((PyArray_DiscoverDTypeAndShape primedTypeDict (PyObj.pyList PyObjList.nil)
        2 none none).ndim = 1 ∧
     (PyArray_DiscoverDTypeAndShape primedTypeDict (PyObj.pyList PyObjList.nil)
        2 none none).outShape.getD 0 (-1) = 0 ∧
     (PyArray_DiscoverDTypeAndShape primedTypeDict (PyObj.pyList PyObjList.nil)
        2 none none).coercionCache =
       [⟨PyObj.pyList PyObjList.nil, PyObj.pyList PyObjList.nil, true⟩] ∧
     (PyArray_DiscoverDTypeAndShape primedTypeDict (PyObj.pyList PyObjList.nil)
        2 none none).exc = none ∧
     (PyArray_DiscoverDTypeAndShape primedTypeDict (PyObj.pyList PyObjList.nil)
        2 none none).warnCount = 0 ∧
     (PyArray_DiscoverDTypeAndShape primedTypeDict (PyObj.pyList PyObjList.nil)
        2 none none).outDescr = some npyDefaultTypeDescr) :=
  ⟨by norm_num, C7_empty_sequence_discovery 2 none none (by norm_num)
    (fun f hf => Option.noConfusion hf)⟩

/-- C10: a node that is neither a known scalar nor array-like, whose
sequence materialization fails.  The dict-like node (KeyError) has its
error cleared and is handled as a single scalar leaf by handle_scalar with
no discovered class; the bad sequence node (any other error) aborts the
recursion with the error set.  Both are stated away from the depth limit,
for a registry that does not know either type and a fixed class that
claims neither. -/
theorem C10_dictlike_keyerror_scalar (curr : Nat) (maxDims : Int)
    (fixed : Option DTypeMeta) (req : Option Descr) (st : DiscState)
    (hne : ¬ (curr : Int) = maxDims)
    (hreg1 : regGet st.reg (PyKey.typeKey PyTypeTag.dictLikeT) = none)
    (hreg2 : regGet st.reg (PyKey.typeKey PyTypeTag.badSeqT) = none)
    (hfix : ∀ f, fixed = some f →
      ¬ typeOf PyObj.dictLike = f.scalarType ∧
      ¬ typeOf PyObj.badSequence = f.scalarType) :
    PyArray_DiscoverDTypeAndShape_Recursive PyObj.dictLike curr maxDims fixed req st =
      applyHandleScalar PyObj.dictLike curr maxDims fixed req none
        { st with deepest := Nat.max st.deepest curr, exc := none } ∧
    PyArray_DiscoverDTypeAndShape_Recursive PyObj.badSequence curr maxDims fixed req st =
      (-1, { st with deepest := Nat.max st.deepest curr,
                     exc := some PyExc.typeErrorNoSequence }) := by
  have hviaD : discoverDTypeViaRegistry st.reg PyObj.dictLike = (none, st.reg) := by
    rw [discoverDTypeViaRegistry]
    rw [show typeOf PyObj.dictLike = PyTypeTag.dictLikeT from rfl]
    rw [discover_dtype_from_pytype, hreg1]
    rfl
  have hviaB : discoverDTypeViaRegistry st.reg PyObj.badSequence = (none, st.reg) := by
    rw [discoverDTypeViaRegistry]
    rw [show typeOf PyObj.badSequence = PyTypeTag.badSeqT from rfl]
    rw [discover_dtype_from_pytype, hreg2]
    rfl
  constructor
  · rw [PyArray_DiscoverDTypeAndShape_Recursive]
    have hs := scalarStep_nonscalar_inr PyObj.dictLike curr maxDims fixed req
      { st with deepest := Nat.max st.deepest curr } hviaD
      (fun f hf => (hfix f hf).1)
    rw [hs]
    dsimp only
    rw [if_neg hne]
  · rw [PyArray_DiscoverDTypeAndShape_Recursive]
    have hs := scalarStep_nonscalar_inr PyObj.badSequence curr maxDims fixed req
      { st with deepest := Nat.max st.deepest curr } hviaB
      (fun f hf => (hfix f hf).2)
    rw [hs]
    dsimp only
    rw [if_neg hne]

/-- Witness for C10 at concrete inputs: below the bound, the dict-like
node falls through to the scalar-leaf handling with the error cleared, and
the bad sequence node aborts with the conversion error. -/
theorem C10_witness :
    PyArray_DiscoverDTypeAndShape_Recursive PyObj.dictLike 0 2 none none baseState =
      applyHandleScalar PyObj.dictLike 0 2 none none none
        { baseState with deepest := Nat.max baseState.deepest 0, exc := none } ∧
    PyArray_DiscoverDTypeAndShape_Recursive PyObj.badSequence 0 2 none none baseState =
      (-1, { baseState with deepest := Nat.max baseState.deepest 0,
                            exc := some PyExc.typeErrorNoSequence }) :=
  C10_dictlike_keyerror_scalar 0 2 none none baseState (by norm_num) rfl rfl
    (fun f hf => Option.noConfusion hf)
